import Mathlib

/-!
# ALPwrapper (Fiberscope, `Software/mex_code/ALP/ALPwrapper/ALPwrapper_multi_dev.cpp`)

A shallow embedding of the `ALPwrapper` class (the session state, set-up and
teardown, the sequence pool, the playback operations and the frame packer
`packInput`) and of `mexFunction`.

Modelling conventions.

* The vendor driver (`alp.h`) is an external collaborator. Every driver call is
  recorded, with the response it got, in `Driver.log`; the response to the
  `n`-th call is `Driver.reply n`, an arbitrary function, so a statement
  quantified over `Driver` holds for every pattern of driver statuses.
* The platform is 64-bit Windows (the file includes `Windows.h` and is built as a
  MEX file): `int` and `long` have 32 bits, `size_t` has 64.
* Identifiers, handles, statuses and counts handed to or received from the driver
  are integers (`Int`); outside `packInput` the only arithmetic on them is
  `nFrames - 1`, `4 * numModes` and the image size `width * height / 8` of
  `clear`, carried out in `Int` and `Nat` without a bound.
* In `packInput` sizes and offsets are products of run-time values computed in
  `int`: they are natural numbers here, and a product above `INT_MAX` (a signed
  overflow, undefined in C++) has no value, so that `packInput` returns `none`.
* A `double` is `Double`: a finite value kept as the rational it denotes, an
  infinity or a NaN. Division and multiplication round their exact result to
  binary64 (to nearest, ties to even); the conversion to `long` truncates toward
  zero inside the range of `long`.
* Memory buffers are lists of bytes; an access outside a buffer makes the
  operation return `none`.
-/

namespace ALP

/-! ## The driver interface -/

/-- Status code returned by a driver primitive. The wrapper only ever compares a
status with `ALP_OK`; every other code is a failure. -/
inductive AlpStatus where
  | ALP_OK
  | error (code : Nat)
  deriving DecidableEq, Repr

/-- Symbolic parameter values of `alp.h` that the wrapper passes to the driver,
next to plain numbers. -/
inductive AlpValue where
  | num (n : Int)
  | ALP_DEFAULT
  | ALP_DATA_BINARY_TOPDOWN
  | ALP_BIN_UNINTERRUPTED
  deriving DecidableEq, Repr

/-- Control types the wrapper passes to `AlpSeqControl`. -/
inductive SeqControlType where
  | ALP_SEQ_REPEAT
  | ALP_BITNUM
  | ALP_FIRSTFRAME
  | ALP_LASTFRAME
  | ALP_DATA_FORMAT
  | ALP_BIN_MODE
  deriving DecidableEq, Repr

/-- Inquiry types the wrapper passes to the `Alp*Inquire` primitives. -/
inductive InquireType where
  | ALP_DEV_DMDTYPE
  | ALP_MIN_PICTURE_TIME
  | ALP_MIN_ILLUMINATE_TIME
  | ALP_PROJ_STATE
  deriving DecidableEq, Repr

/-- A call of a driver primitive with the arguments the wrapper passes (out
parameters are part of the response). -/
inductive DriverCall where
  | AlpDevAlloc (DeviceNum : Int) (InitFlag : AlpValue)
  | AlpDevInquire (DeviceId : Int) (InquireType : InquireType)
  | AlpDevHalt (DeviceId : Int)
  | AlpDevFree (DeviceId : Int)
  | AlpSeqAlloc (DeviceId : Int) (BitPlanes : Int) (PicNum : Int)
  | AlpSeqControl (DeviceId SequenceId : Int) (ControlType : SeqControlType)
      (ControlValue : AlpValue)
  | AlpSeqInquire (DeviceId SequenceId : Int) (InquireType : InquireType)
  | AlpSeqTiming (DeviceId SequenceId : Int) (IlluminateTime : AlpValue)
      (PictureTime SynchDelay SynchPulseWidth TriggerInDelay : Int)
  | AlpSeqPut (DeviceId SequenceId : Int) (PicOffset : Int) (PicLoad : AlpValue)
      (UserArray : List Nat)
  | AlpSeqFree (DeviceId SequenceId : Int)
  | AlpProjStart (DeviceId SequenceId : Int)
  | AlpProjStartCont (DeviceId SequenceId : Int)
  | AlpProjHalt (DeviceId : Int)
  | AlpProjWait (DeviceId : Int)
  | AlpProjInquire (DeviceId : Int) (InquireType : InquireType)
  deriving DecidableEq, Repr

/-- What a driver primitive hands back: its status and the value it stores in
its out parameter (a device id, a sequence id, an inquiry result), if it has one. -/
structure Response where
  status : AlpStatus
  value : Int
  deriving DecidableEq, Repr

/-- The driver as the wrapper sees it: `reply n` is the response to the `n`-th
call (counted from 0), `log` the calls issued so far with their responses,
oldest first. -/
structure Driver where
  reply : Nat → Response
  log : List (DriverCall × Response)

/-- Issue one driver call: the response is the next one of `reply`, and the call
is appended to the log. -/
def Driver.call (d : Driver) (c : DriverCall) : Response × Driver :=
  (d.reply d.log.length, { d with log := d.log ++ [(c, d.reply d.log.length)] })

/-- The calls issued so far, oldest first, without their responses. -/
def Driver.calls (d : Driver) : List DriverCall :=
  d.log.map Prod.fst

/-! ## The session -/

/-- The private members of `class ALPwrapper`. -/
structure ALPwrapper where
  playingCont : Bool
  allocatedSequences : List Int
  initialized : Bool
  nAlpId : Int
  _devID : Int
  width : Nat
  height : Nat
  deriving DecidableEq, Repr

/-- `ALPwrapper::ALPwrapper(int devID)`. The constructor leaves `width` and
`height` uninitialised: their indeterminate values are the two extra arguments. -/
def ALPwrapper.new (devID : Int) (width height : Nat) : ALPwrapper :=
  { playingCont := false, allocatedSequences := [], initialized := false,
    nAlpId := -1, _devID := devID, width := width, height := height }

/-- `ALPwrapper::removeAllocatedSequenceFromList`: `std::list::remove` erases
every element equal to `sequence` and keeps the others in order. -/
def removeAllocatedSequenceFromList (s : ALPwrapper) (sequence : Int) : ALPwrapper :=
  { s with allocatedSequences := s.allocatedSequences.filter (fun x => x != sequence) }

/-- `ALPwrapper::stopSequence`. -/
def stopSequence (s : ALPwrapper) (d : Driver) : Bool × ALPwrapper × Driver :=
  let p1 := d.call (.AlpProjHalt s.nAlpId)
  let p2 := p1.2.call (.AlpProjWait s.nAlpId)
  (decide (p1.1.status = .ALP_OK) && decide (p2.1.status = .ALP_OK),
    { s with playingCont := false }, p2.2)

/-- `ALPwrapper::allocateStandardSequence`. -/
def allocateStandardSequence (s : ALPwrapper) (d : Driver) (nFrames : Int) :
    Int × ALPwrapper × Driver :=
  let p0 := d.call (.AlpSeqAlloc s.nAlpId 1 nFrames)
  if p0.1.status ≠ .ALP_OK then
    (-1, s, p0.2)
  else
    let nSeqId := p0.1.value
    let p1 := p0.2.call (.AlpSeqControl s.nAlpId nSeqId .ALP_SEQ_REPEAT (.num 1))
    let p2 := p1.2.call (.AlpSeqControl s.nAlpId nSeqId .ALP_BITNUM (.num 1))
    let p3 := p2.2.call (.AlpSeqControl s.nAlpId nSeqId .ALP_FIRSTFRAME (.num 0))
    let p4 := p3.2.call (.AlpSeqControl s.nAlpId nSeqId .ALP_LASTFRAME (.num (nFrames - 1)))
    let p5 := p4.2.call (.AlpSeqControl s.nAlpId nSeqId .ALP_DATA_FORMAT .ALP_DATA_BINARY_TOPDOWN)
    let p6 := p5.2.call (.AlpSeqControl s.nAlpId nSeqId .ALP_BIN_MODE .ALP_BIN_UNINTERRUPTED)
    if p1.1.status ≠ .ALP_OK ∨ p2.1.status ≠ .ALP_OK ∨ p3.1.status ≠ .ALP_OK ∨
        p4.1.status ≠ .ALP_OK ∨ p5.1.status ≠ .ALP_OK ∨ p6.1.status ≠ .ALP_OK then
      let p7 := p6.2.call (.AlpSeqFree s.nAlpId nSeqId)
      (-1, s, p7.2)
    else
      (nSeqId, { s with allocatedSequences := s.allocatedSequences ++ [nSeqId] }, p6.2)

/-- `ALPwrapper::releaseSequence`. -/
def releaseSequence (s : ALPwrapper) (d : Driver) (sequence : Int) :
    Bool × ALPwrapper × Driver :=
  let p := d.call (.AlpSeqFree s.nAlpId sequence)
  (decide (p.1.status = .ALP_OK), removeAllocatedSequenceFromList s sequence, p.2)

/-- The `for` loop of `ALPwrapper::releaseAllSequences` over the remaining pool
entries. -/
def releaseAllSequences.loop (nAlpId : Int) : List Int → Driver → Bool → Bool × Driver
  | [], d, allSuccessful => (allSuccessful, d)
  | it :: rest, d, allSuccessful =>
    let p := d.call (.AlpSeqFree nAlpId it)
    releaseAllSequences.loop nAlpId rest p.2 (allSuccessful && decide (p.1.status = .ALP_OK))

/-- `ALPwrapper::releaseAllSequences`. -/
def releaseAllSequences (s : ALPwrapper) (d : Driver) : Bool × ALPwrapper × Driver :=
  let r := releaseAllSequences.loop s.nAlpId s.allocatedSequences d true
  (r.1, { s with allocatedSequences := [] }, r.2)

/-- `ALPwrapper::prepareCalibrationSequence`. The locals `PictureTime`,
`SynchDelay`, `SynchPulseWidth` and `TriggerInDelay` are passed to `AlpSeqTiming`
uninitialised, and the image array is uploaded as `new` returned it: their
indeterminate values are the arguments after `numModes`. (`new` does not return
a null pointer, so the branch on `pImageData == nullptr` is not taken.) -/
def prepareCalibrationSequence (s : ALPwrapper) (d : Driver) (numModes : Int)
    (PictureTime SynchDelay SynchPulseWidth TriggerInDelay : Int) (pImageData : List Nat) :
    Bool × ALPwrapper × Driver :=
  let nFrames := 4 * numModes
  let p0 := d.call (.AlpSeqAlloc s.nAlpId 1 nFrames)
  if p0.1.status ≠ .ALP_OK then
    (false, s, p0.2)
  else
    let nSeqId := p0.1.value
    let s1 := { s with allocatedSequences := s.allocatedSequences ++ [nSeqId] }
    let p1 := p0.2.call (.AlpSeqControl s.nAlpId nSeqId .ALP_SEQ_REPEAT (.num 1))
    let p2 := p1.2.call (.AlpSeqControl s.nAlpId nSeqId .ALP_BITNUM (.num 1))
    let p3 := p2.2.call (.AlpSeqControl s.nAlpId nSeqId .ALP_FIRSTFRAME (.num 0))
    let p4 := p3.2.call (.AlpSeqControl s.nAlpId nSeqId .ALP_LASTFRAME (.num (nFrames - 1)))
    let p5 := p4.2.call (.AlpSeqControl s.nAlpId nSeqId .ALP_DATA_FORMAT .ALP_DATA_BINARY_TOPDOWN)
    let p6 := p5.2.call (.AlpSeqControl s.nAlpId nSeqId .ALP_BIN_MODE .ALP_BIN_UNINTERRUPTED)
    if p1.1.status ≠ .ALP_OK ∨ p2.1.status ≠ .ALP_OK ∨ p3.1.status ≠ .ALP_OK ∨
        p4.1.status ≠ .ALP_OK ∨ p5.1.status ≠ .ALP_OK ∨ p6.1.status ≠ .ALP_OK then
      let p7 := p6.2.call (.AlpSeqFree s.nAlpId nSeqId)
      (false, s1, p7.2)
    else
      let p7 := p6.2.call (.AlpSeqInquire s.nAlpId nSeqId .ALP_MIN_PICTURE_TIME)
      let p8 := p7.2.call (.AlpSeqInquire s.nAlpId nSeqId .ALP_MIN_ILLUMINATE_TIME)
      let p9 := p8.2.call (.AlpSeqTiming s.nAlpId nSeqId .ALP_DEFAULT PictureTime SynchDelay
        SynchPulseWidth TriggerInDelay)
      let p10 := p9.2.call (.AlpSeqPut s.nAlpId nSeqId 0 (.num nFrames) pImageData)
      (true, s1, p10.2)

/-- `ALPwrapper::showPattern`. -/
def showPattern (s : ALPwrapper) (d : Driver) (pattern : List Nat) :
    Bool × ALPwrapper × Driver :=
  let a := allocateStandardSequence s d 1
  if a.1 = -1 then
    (false, a.2.1, a.2.2)
  else
    let p := a.2.2.call (.AlpSeqPut a.2.1.nAlpId a.1 0 .ALP_DEFAULT pattern)
    if p.1.status ≠ .ALP_OK then
      let r := releaseSequence a.2.1 p.2 a.1
      (false, r.2.1, r.2.2)
    else
      let q := p.2.call (.AlpProjStartCont a.2.1.nAlpId a.1)
      (decide (q.1.status = .ALP_OK), a.2.1, q.2)

/-- `ALPwrapper::clear`: the image is `width*height/8` bytes, all 255 or all 0. -/
def clear (s : ALPwrapper) (d : Driver) (white : Bool) : Bool × ALPwrapper × Driver :=
  let a := allocateStandardSequence s d 1
  if a.1 = -1 then
    (false, a.2.1, a.2.2)
  else
    let pImageData := List.replicate (a.2.1.width * a.2.1.height / 8) (if white then 255 else 0)
    let p := a.2.2.call (.AlpSeqPut a.2.1.nAlpId a.1 0 (.num 1) pImageData)
    if p.1.status ≠ .ALP_OK then
      (false, a.2.1, p.2)
    else
      let q := p.2.call (.AlpProjStartCont a.2.1.nAlpId a.1)
      (decide (q.1.status = .ALP_OK), a.2.1, q.2)

/-- `ALPwrapper::uploadSequence`. -/
def uploadSequence (s : ALPwrapper) (d : Driver) (sequence : List Nat) (numFrames : Int) :
    Int × ALPwrapper × Driver :=
  let a := allocateStandardSequence s d numFrames
  if a.1 = -1 then
    (-1, a.2.1, a.2.2)
  else
    let p := a.2.2.call (.AlpSeqPut a.2.1.nAlpId a.1 0 .ALP_DEFAULT sequence)
    if p.1.status ≠ .ALP_OK then
      let r := releaseSequence a.2.1 p.2 a.1
      (-1, r.2.1, r.2.2)
    else
      (a.1, a.2.1, p.2)

/-! ### Floating point

`runUploadedSequence` computes the picture time as
`long PictureTime = 1.0 / double(frameRate) * 1000000;`, two operations on
IEEE 754 binary64 values, each rounded to the nearest representable value, and a
conversion to the 32-bit `long` of the platform (the file is a Windows MEX file). -/

/-- A value of type `double`: a finite value, kept as the rational number it
denotes, an infinity, or a NaN. The sign of a zero and of an infinity is not
kept: the operations embedded here (`1.0 / x`, `x * 1000000` and the conversion
to `long`) do not depend on it beyond what the three cases record. -/
inductive Double where
  | finite (q : ℚ)
  | infinite
  | nan
  deriving DecidableEq

/-- Nearest integer, a tie going to the even one. -/
def Double.nearestEven (q : ℚ) : Int :=
  if q - ⌊q⌋ < 1 / 2 then ⌊q⌋
  else if 1 / 2 < q - ⌊q⌋ then ⌊q⌋ + 1
  else if ⌊q⌋ % 2 = 0 then ⌊q⌋ else ⌊q⌋ + 1

/-- Exponent of the unit in the last place of the binary64 values next to `q`:
a significand of 53 bits puts it 52 below the binary exponent of `q`, and the
subnormal range stops it at -1074. -/
def Double.ulpExponent (q : ℚ) : Int :=
  max (Int.log 2 |q| - 52) (-1074)

/-- Rounding of an exact result to binary64 in the default mode (to nearest, ties
to even): the result is the nearest multiple of the unit in the last place, and a
result that reaches `2 ^ 1024` overflows to an infinity. -/
def Double.round (q : ℚ) : Double :=
  let r : ℚ := Double.nearestEven (q / 2 ^ Double.ulpExponent q) * 2 ^ Double.ulpExponent q
  if |r| < 2 ^ 1024 then .finite r else .infinite

/-- A literal: `1.0` and `1000000` (an `int` converted to `double`) are
representable, as is every literal used in this file. -/
instance : OfNat Double n := ⟨.finite n⟩

/-- Division of two `double` values. -/
def Double.div : Double → Double → Double
  | .finite a, .finite b =>
    if b = 0 then (if a = 0 then .nan else .infinite) else Double.round (a / b)
  | .finite _, .infinite => .finite 0
  | .infinite, .finite _ => .infinite
  | .infinite, .infinite => .nan
  | .nan, _ => .nan
  | _, .nan => .nan

/-- Product of two `double` values. -/
def Double.mul : Double → Double → Double
  | .finite a, .finite b => Double.round (a * b)
  | .finite a, .infinite => if a = 0 then .nan else .infinite
  | .infinite, .finite b => if b = 0 then .nan else .infinite
  | .infinite, .infinite => .infinite
  | .nan, _ => .nan
  | _, .nan => .nan

instance : Div Double := ⟨Double.div⟩

instance : Mul Double := ⟨Double.mul⟩

/-- `LONG_MIN` of the 32-bit `long`. -/
def LONG_MIN : Int := -2147483648

/-- `LONG_MAX` of the 32-bit `long`. -/
def LONG_MAX : Int := 2147483647

/-- Conversion of a `double` to `long`: the fractional part is discarded, that is,
the value is truncated toward zero. For a value whose truncation is outside the
range of `long`, an infinity or a NaN, C++ leaves the conversion undefined; the
conversion instruction of the x86 processors (`cvttsd2si`) then delivers
`0x80000000`, which is `LONG_MIN`, and that is the value taken here. -/
def doubleToLong : Double → Int
  | .finite q =>
    if LONG_MIN ≤ Int.tdiv q.num q.den ∧ Int.tdiv q.num q.den ≤ LONG_MAX then
      Int.tdiv q.num q.den
    else LONG_MIN
  | _ => LONG_MIN

/-- The `for` loop of `ALPwrapper::runUploadedSequence` over the remaining pool
entries: the first entry equal to `sequence` runs the body and returns. -/
def runUploadedSequence.loop (s : ALPwrapper) (d : Driver) (sequence : Int) (frameRate : Double)
    (continuous : Bool) (numRepeats : Int) : List Int → Bool × ALPwrapper × Driver
  | [] => (false, s, d)
  | it :: rest =>
    if it = sequence then
      let IlluminateTime : Int := 0
      let PictureTime : Int := doubleToLong (1 / frameRate * 1000000)
      let SynchDelay : Int := 0
      let SynchPulseWidth : Int := Int.tdiv PictureTime 2
      let TriggerInDelay : Int := 0
      let d1 := if continuous then d
        else (d.call (.AlpSeqControl s.nAlpId sequence .ALP_SEQ_REPEAT (.num numRepeats))).2
      let p9 := d1.call (.AlpSeqTiming s.nAlpId sequence (.num IlluminateTime) PictureTime
        SynchDelay SynchPulseWidth TriggerInDelay)
      if p9.1.status = .ALP_OK then
        if continuous then
          let st := if s.playingCont then (stopSequence s p9.2).2 else (s, p9.2)
          let p := st.2.call (.AlpProjStartCont st.1.nAlpId it)
          (decide (p.1.status = .ALP_OK), { st.1 with playingCont := true }, p.2)
        else
          let p := p9.2.call (.AlpProjStart s.nAlpId it)
          (decide (p.1.status = .ALP_OK), { s with playingCont := false }, p.2)
      else
        (false, s, p9.2)
    else
      runUploadedSequence.loop s d sequence frameRate continuous numRepeats rest

/-- `ALPwrapper::runUploadedSequence`. -/
def runUploadedSequence (s : ALPwrapper) (d : Driver) (sequence : Int) (frameRate : Double)
    (continuous : Bool) (numRepeats : Int) : Bool × ALPwrapper × Driver :=
  runUploadedSequence.loop s d sequence frameRate continuous numRepeats s.allocatedSequences

/-! ## The frame packer -/

/-- A counted loop `for (int i = 0; i < n; i++) body`, the body threading the
state and failing on an access outside a buffer. -/
def forLoop {σ : Type} (n : Nat) (body : Nat → σ → Option σ) (init : σ) : Option σ :=
  (List.range n).foldlM (fun st i => body i st) init

/-- `memset(b, v, n)`: the first `n` bytes of `b` become `v`. -/
def memset (b : List Nat) (v n : Nat) : Option (List Nat) :=
  if n ≤ b.length then some (List.replicate n v ++ b.drop n) else none

/-- `memcpy(dst, src, n)`: the first `n` bytes of `dst` become those of `src`. -/
def memcpy (dst src : List Nat) (n : Nat) : Option (List Nat) :=
  if n ≤ dst.length ∧ n ≤ src.length then some (src.take n ++ dst.drop n) else none

/-- Assignment `b[i] = v` to an `unsigned char` array: the value is reduced
modulo 256. -/
def store (b : List Nat) (i v : Nat) : Option (List Nat) :=
  if i < b.length then some (b.set i (v % 256)) else none

/-- `INT_MAX` of the 32-bit `int`. -/
def INT_MAX : Nat := 2147483647

/-- The product of two non-negative `int` values. A product above `INT_MAX` is a
signed overflow, which C++ leaves undefined: the operation then has no result. -/
def intMul (a b : Nat) : Option Nat :=
  if a * b ≤ INT_MAX then some (a * b) else none

/-- The sum of two non-negative `int` values, with the same reading of an
overflow. -/
def intAdd (a b : Nat) : Option Nat :=
  if a + b ≤ INT_MAX then some (a + b) else none

/-- The read `Input[InputFrameOffset + height * (x * 8 + k) + y]`. The column
`x * 8 + k` and its product with `height` are `int` operations; the two sums with
the `size_t` offset are unsigned 64-bit sums of values up to `INT_MAX`, which do
not wrap. -/
def packInput.pixel (Input : List Nat) (InputFrameOffset height x k y : Nat) : Option Nat :=
  (intMul x 8).bind fun x8 =>
    (intAdd x8 k).bind fun column =>
      (intMul height column).bind fun start =>
        Input[InputFrameOffset + start + y]?

/-- The right-hand side of the assignment in the innermost loop of `packInput`:
the eight input bytes read for output byte `x` of row `y`, weighted and OR-ed. -/
def packInput.byte (Input : List Nat) (InputFrameOffset height x y : Nat) : Option Nat := do
  let a0 ← packInput.pixel Input InputFrameOffset height x 0 y
  let a1 ← packInput.pixel Input InputFrameOffset height x 1 y
  let a2 ← packInput.pixel Input InputFrameOffset height x 2 y
  let a3 ← packInput.pixel Input InputFrameOffset height x 3 y
  let a4 ← packInput.pixel Input InputFrameOffset height x 4 y
  let a5 ← packInput.pixel Input InputFrameOffset height x 5 y
  let a6 ← packInput.pixel Input InputFrameOffset height x 6 y
  let a7 ← packInput.pixel Input InputFrameOffset height x 7 y
  pure (a0 * 128 ||| a1 * 64 ||| a2 * 32 ||| a3 * 16 ||| a4 * 8 ||| a5 * 4 ||| a6 * 2 ||| a7 * 1)

/-- `ALPwrapper::packInput`. `new unsigned char[memToAllocate]` returns memory of
indeterminate content: byte `i` of it is `uninit i`. The result is the returned
buffer `packedInput`. The sizes and offsets are computed in `int`
(`stride * height * numFrames`, `width / 8 * height`, `frame * stride * height`,
`Input_width * Input_height * frame`, `y * stride`), each product from left to
right, before they are converted to `size_t`; the result is `none` when one of
them overflows or an access leaves a buffer. -/
def packInput (s : ALPwrapper) (Input : List Nat) (Input_width Input_height numFrames : Nat)
    (uninit : Nat → Nat) : Option (List Nat) :=
  let stride := s.width / 8
  ((intMul stride s.height).bind fun sh => intMul sh numFrames).bind fun memToAllocate =>
    let packedInput := (List.range memToAllocate).map uninit
    ((intMul (s.width / 8) s.height).bind fun n => memset packedInput 0 n).bind
      fun packedInput =>
        if Input_width = 1024 ∨ Input_width = 768 then
          forLoop numFrames (fun frame packedInput =>
            ((intMul frame stride).bind fun fs => intMul fs s.height).bind
              fun packedFrameOffset =>
                ((intMul Input_width Input_height).bind fun wh => intMul wh frame).bind
                  fun InputFrameOffset =>
                    let len := Input_width / 8
                    forLoop s.height (fun y packedInput =>
                      forLoop len (fun x packedInput =>
                        (packInput.byte Input InputFrameOffset s.height x y).bind fun v =>
                          (intMul y stride).bind fun row =>
                            store packedInput (packedFrameOffset + row + x) v) packedInput)
                      packedInput) packedInput
        else
          ((intMul stride s.height).bind fun sh => intMul sh numFrames).bind fun n =>
            memcpy packedInput Input n

/-! ## Session set-up, teardown and queries -/

/-- The DMD types `ALPwrapper::init` tells apart: the six `ALP_DMDTYPE_*` constants
of its `switch`, and `other` for every value that is none of them (the `default`
label). The numeric values of the constants are in `alp.h`. -/
inductive DmdType where
  | ALP_DMDTYPE_XGA_055A
  | ALP_DMDTYPE_XGA_055X
  | ALP_DMDTYPE_XGA_07A
  | ALP_DMDTYPE_DISCONNECT
  | ALP_DMDTYPE_1080P_095A
  | ALP_DMDTYPE_WUXGA_096A
  | other
  deriving DecidableEq, Repr

/-- `ALPwrapper::isInitialized`. -/
def isInitialized (s : ALPwrapper) : Bool :=
  s.initialized

/-- `ALPwrapper::init`. `dmdType` reads the value `AlpDevInquire` stored in
`nDmdType` against the `ALP_DMDTYPE_*` constants of `alp.h`. `AlpDevAlloc` has
`nAlpId` as its out parameter; `AlpDevInquire` is only called when `AlpDevAlloc`
returned `ALP_OK` (short-circuit `||`). -/
def init (dmdType : Int → DmdType) (s : ALPwrapper) (d : Driver) :
    Bool × ALPwrapper × Driver :=
  if s.initialized then
    (true, s, d)
  else
    let p0 := d.call (.AlpDevAlloc s._devID .ALP_DEFAULT)
    let s1 := { s with nAlpId := p0.1.value }
    if p0.1.status ≠ .ALP_OK then
      (false, s1, p0.2)
    else
      let p1 := p0.2.call (.AlpDevInquire s1.nAlpId .ALP_DEV_DMDTYPE)
      if p1.1.status ≠ .ALP_OK then
        (false, s1, p1.2)
      else
        match dmdType p1.1.value with
        | .ALP_DMDTYPE_XGA_055A | .ALP_DMDTYPE_XGA_055X | .ALP_DMDTYPE_XGA_07A =>
          (true, { s1 with width := 1024, height := 768, initialized := true }, p1.2)
        | .ALP_DMDTYPE_DISCONNECT | .ALP_DMDTYPE_1080P_095A =>
          (true, { s1 with width := 1920, height := 1080, initialized := true }, p1.2)
        | .ALP_DMDTYPE_WUXGA_096A =>
          (true, { s1 with width := 1920, height := 1200, initialized := true }, p1.2)
        | .other =>
          (false, s1, p1.2)

/-- `ALPwrapper::release` (also the body of the destructor). -/
def release (s : ALPwrapper) (d : Driver) : ALPwrapper × Driver :=
  if !s.initialized then
    (s, d)
  else
    let p0 := d.call (.AlpDevHalt s.nAlpId)
    let r := releaseAllSequences s p0.2
    let p1 := r.2.2.call (.AlpDevFree r.2.1.nAlpId)
    ({ r.2.1 with initialized := false }, p1.2)

/-- `ALPwrapper::hasSequenceCompleted`. `Ret` is the out parameter of
`AlpProjInquire`; `ALP_PROJ_IDLE` is a constant of `alp.h`. The status of the call
is not looked at. -/
def hasSequenceCompleted (ALP_PROJ_IDLE : Int) (s : ALPwrapper) (d : Driver) :
    Bool × ALPwrapper × Driver :=
  let p := d.call (.AlpProjInquire s.nAlpId .ALP_PROJ_STATE)
  (decide (p.1.value = ALP_PROJ_IDLE), s, p.2)

/-- `ALPwrapper::waitForSequenceCompletion`. -/
def waitForSequenceCompletion (s : ALPwrapper) (d : Driver) : Bool × ALPwrapper × Driver :=
  let p := d.call (.AlpProjWait s.nAlpId)
  (decide (p.1.status = .ALP_OK), s, p.2)

/-! ## `mexFunction`

The body of `mexFunction` begins with two `AlpDevAlloc` calls and an unconditional
`return;` (lines 649 to 651). What follows in the source, the extraction of the
command string and the command dispatch, is never executed. `mexFunction` is the
function as it runs; `mexFunction.dispatch` is the text of the unreachable
dispatch (lines 660 to 755), with the arguments already read out of the MATLAB
arrays, kept to record what that code would do. -/

/-- `MAX_CONNECTED_DMDS`, the length of the table `alps`. -/
def MAX_CONNECTED_DMDS : Int := 2

/-- What goes wrong in memory: the table `alps` indexed outside
`[0, MAX_CONNECTED_DMDS)`, a null session pointer dereferenced, or `packInput`
leaving one of its buffers. -/
inductive MexFault where
  | outOfBounds (index : Int)
  | nullPointer
  | bufferOverrun
  deriving DecidableEq, Repr

/-- How one call of the MEX function ends: with `mexErrMsgTxt`, or by returning,
`plhs[0]` set or not (a `bool` is 0 or 1). -/
inductive MexOutcome where
  | errMsgTxt (msg : String)
  | returned (plhs0 : Option Int)
  deriving DecidableEq, Repr

/-- The arguments of one call, as the code reads them out of `prhs`:
`Command` is `prhs[0]`, `devID` is `prhs[1]`; `seqID`, `frameRateHz` and
`numRepeats` are `prhs[2..4]` of `ReleaseSequence` and `PlayUploadedSequence`;
`numDim`, `dim1`, the class test and `Input` describe the array `prhs[2]` of
`ShowPattern` and `UploadPatternSequence`. -/
structure MexCall where
  nrhs : Nat
  Command : String
  devID : Int
  seqID : Int
  frameRateHz : Double
  numRepeats : Int
  numDim : Nat
  dim1 : List Nat
  isUint8OrLogical : Bool
  Input : List Nat

/-- The read `alps[devID]`. -/
def alpsGet (alps : List (Option ALPwrapper)) (devID : Int) :
    Except MexFault (Option ALPwrapper) :=
  if 0 ≤ devID ∧ devID < MAX_CONNECTED_DMDS then
    .ok (alps.getD devID.toNat none)
  else
    .error (.outOfBounds devID)

/-- The write `alps[devID] = v`, also the update in place of the session
`alps[devID]` points to. -/
def alpsSet (alps : List (Option ALPwrapper)) (devID : Int) (v : Option ALPwrapper) :
    Except MexFault (List (Option ALPwrapper)) :=
  if 0 ≤ devID ∧ devID < MAX_CONNECTED_DMDS then
    .ok (alps.set devID.toNat v)
  else
    .error (.outOfBounds devID)

/-- The function `ShowPattern` of the MEX file. -/
def ShowPattern (uninit : Nat → Nat) (a : MexCall) (alps : List (Option ALPwrapper))
    (d : Driver) : Except MexFault (MexOutcome × List (Option ALPwrapper) × Driver) :=
  if a.nrhs ≠ 3 then
    .ok (.errMsgTxt "Need an input pattern", alps, d)
  else if a.dim1.getD 0 0 ≠ 768 then
    .ok (.errMsgTxt "Pattern needs to be 768x128 (packed) or 768x1024 (unpacked, binary), UINT8",
      alps, d)
  else if a.dim1.getD 1 0 ≠ 128 ∧ a.dim1.getD 1 0 ≠ 1024 ∧ a.dim1.getD 1 0 ≠ 768 then
    .ok (.errMsgTxt "Pattern needs to be 768x128 (1024 packed) or 768x1024 (unpacked, binary), or 768x768 (unpacked, binary) UINT8",
      alps, d)
  else if !a.isUint8OrLogical then
    .ok (.errMsgTxt "Pattern needs to be 768x128 (packed) or 768x1024 (unpacked, binary), UINT8",
      alps, d)
  else
    match alpsGet alps a.devID with
    | .error e => .error e
    | .ok none => .ok (.returned (some 0), alps, d)
    | .ok (some w) =>
      match packInput w a.Input (a.dim1.getD 1 0) (a.dim1.getD 0 0) 1 uninit with
      | none => .error .bufferOverrun
      | some Pat =>
        let r := showPattern w d Pat
        match alpsSet alps a.devID (some r.2.1) with
        | .error e => .error e
        | .ok alps1 => .ok (.returned (some (if r.1 then 1 else 0)), alps1, r.2.2)

/-- The function `UploadPatternSequence` of the MEX file. -/
def UploadPatternSequence (uninit : Nat → Nat) (a : MexCall)
    (alps : List (Option ALPwrapper)) (d : Driver) :
    Except MexFault (MexOutcome × List (Option ALPwrapper) × Driver) :=
  if a.nrhs ≠ 3 then
    .ok (.errMsgTxt "Need an input pattern sequence", alps, d)
  else
    let numFrames : Nat := if a.numDim = 3 then a.dim1.getD 2 0 else 1
    if a.dim1.getD 0 0 ≠ 768 ∨
        (a.dim1.getD 1 0 ≠ 128 ∧ a.dim1.getD 1 0 ≠ 1024 ∧ a.dim1.getD 1 0 ≠ 768) ∨
        !a.isUint8OrLogical then
      .ok (.errMsgTxt "Valid input size is: 768x128xN (packed), 768x768xN, or 768x1024xN, all UINT8",
        alps, d)
    else
      match alpsGet alps a.devID with
      | .error e => .error e
      | .ok none => .ok (.returned (some (-1)), alps, d)
      | .ok (some w) =>
        if a.dim1.getD 1 0 = 1024 ∨ a.dim1.getD 1 0 = 768 then
          match packInput w a.Input (a.dim1.getD 1 0) (a.dim1.getD 0 0) numFrames uninit with
          | none => .error .bufferOverrun
          | some Pat =>
            let r := uploadSequence w d Pat numFrames
            match alpsSet alps a.devID (some r.2.1) with
            | .error e => .error e
            | .ok alps1 => .ok (.returned (some r.1), alps1, r.2.2)
        else
          let r := uploadSequence w d a.Input numFrames
          match alpsSet alps a.devID (some r.2.1) with
          | .error e => .error e
          | .ok alps1 => .ok (.returned (some r.1), alps1, r.2.2)

/-- The function `ReleaseSequence` of the MEX file: it dereferences `alps[devID]`
without a test of its own. -/
def ReleaseSequence (a : MexCall) (alps : List (Option ALPwrapper)) (d : Driver) :
    Except MexFault (MexOutcome × List (Option ALPwrapper) × Driver) :=
  if a.nrhs ≠ 3 then
    .ok (.errMsgTxt "Use: ALPwrapper('DevID, ReleaseSequence',SequenceID'\n", alps, d)
  else
    match alpsGet alps a.devID with
    | .error e => .error e
    | .ok none => .error .nullPointer
    | .ok (some w) =>
      let r := releaseSequence w d a.seqID
      match alpsSet alps a.devID (some r.2.1) with
      | .error e => .error e
      | .ok alps1 => .ok (.returned (some (if r.1 then 1 else 0)), alps1, r.2.2)

/-- The function `PlaySequence` of the MEX file: `numRepeats == 0` asks for
continuous playback (`numRepeats` then takes its default, 1). -/
def PlaySequence (a : MexCall) (alps : List (Option ALPwrapper)) (d : Driver) :
    Except MexFault (MexOutcome × List (Option ALPwrapper) × Driver) :=
  if a.nrhs ≠ 5 then
    .ok (.errMsgTxt "Use: ALPwrapper('PlaySequence',DevID, SequenceID, FrameRate(Hz), NumRepeats (0=continuous)'\n",
      alps, d)
  else
    match alpsGet alps a.devID with
    | .error e => .error e
    | .ok none => .error .nullPointer
    | .ok (some w) =>
      let r := if a.numRepeats = 0 then runUploadedSequence w d a.seqID a.frameRateHz true 1
        else runUploadedSequence w d a.seqID a.frameRateHz false a.numRepeats
      match alpsSet alps a.devID (some r.2.1) with
      | .error e => .error e
      | .ok alps1 => .ok (.returned (some (if r.1 then 1 else 0)), alps1, r.2.2)

/-- A session operation called as `alps[devID]->op(...)` with its result dropped
or stored in `plhs[0]`: the session in slot `devID` is updated in place. -/
def mexFunction.onSession (a : MexCall) (alps : List (Option ALPwrapper))
    (r : Bool × ALPwrapper × Driver) (plhs0 : Option Int) :
    Except MexFault (MexOutcome × List (Option ALPwrapper) × Driver) :=
  match alpsSet alps a.devID (some r.2.1) with
  | .error e => .error e
  | .ok alps1 => .ok (.returned plhs0, alps1, r.2.2)

/-- The command dispatch that follows the `return;` of `mexFunction` and is never
executed: the `else if` chain on `Command`.
`uninitWidth` and `uninitHeight` are the indeterminate `width` and `height` of a
session `Init` constructs, `uninit` the content of the memory `packInput`
allocates. `delete alps[devID]` runs the destructor, that is `release`; the
registration of `exitFunction` and the console messages are left out. -/
def mexFunction.dispatch (dmdType : Int → DmdType) (ALP_PROJ_IDLE : Int)
    (uninitWidth uninitHeight : Nat) (uninit : Nat → Nat) (a : MexCall)
    (alps : List (Option ALPwrapper)) (d : Driver) :
    Except MexFault (MexOutcome × List (Option ALPwrapper) × Driver) :=
  if a.Command = "Init" then
    if a.nrhs ≠ 2 then
      .ok (.errMsgTxt "\nError. Please specify ALP device index.\n", alps, d)
    else if a.devID < 0 ∨ a.devID ≥ MAX_CONNECTED_DMDS then
      .ok (.errMsgTxt "\nError. ALP device index is out of range.\n", alps, d)
    else
      match alpsGet alps a.devID with
      | .error e => .error e
      | .ok old =>
        let d1 := match old with
          | some w => (release w d).2
          | none => d
        let r := init dmdType (ALPwrapper.new a.devID uninitWidth uninitHeight) d1
        match alpsSet alps a.devID (some r.2.1) with
        | .error e => .error e
        | .ok alps1 => .ok (.returned (some (if r.1 then 1 else 0)), alps1, r.2.2)
  else if a.Command = "IsInitialized" then
    if a.nrhs ≠ 2 then
      .ok (.errMsgTxt "\nError. Please specify ALP device index.\n", alps, d)
    else if a.devID < 0 ∨ a.devID ≥ MAX_CONNECTED_DMDS then
      .ok (.errMsgTxt "\nError. ALP device index is out of range.\n", alps, d)
    else
      match alpsGet alps a.devID with
      | .error e => .error e
      | .ok none => .ok (.returned (some 0), alps, d)
      | .ok (some w) => .ok (.returned (some (if isInitialized w then 1 else 0)), alps, d)
  else
    if a.nrhs < 2 then
      .ok (.errMsgTxt "\nError. Please specify ALP device index.\n", alps, d)
    else
      match alpsGet alps a.devID with
      | .error e => .error e
      | .ok none => .ok (.returned none, alps, d)
      | .ok (some w) =>
        if a.Command = "ClearWhite" then
          mexFunction.onSession a alps (clear w d true) none
        else if a.Command = "ClearBlack" then
          mexFunction.onSession a alps (clear w d false) none
        else if a.Command = "ShowPattern" then
          ShowPattern uninit a alps d
        else if a.Command = "StopSequence" then
          mexFunction.onSession a alps (stopSequence w d) none
        else if a.Command = "WaitForSequenceCompletion" then
          mexFunction.onSession a alps (waitForSequenceCompletion w d) none
        else if a.Command = "UploadPatternSequence" then
          UploadPatternSequence uninit a alps d
        else if a.Command = "PlayUploadedSequence" then
          PlaySequence a alps d
        else if a.Command = "ReleaseSequence" then
          ReleaseSequence a alps d
        else if a.Command = "ReleaseAllSequences" then
          mexFunction.onSession a alps (releaseAllSequences w d) none
        else if a.Command = "Release" then
          match alpsSet alps a.devID none with
          | .error e => .error e
          | .ok alps1 => .ok (.returned none, alps1, (release w d).2)
        else if a.Command = "HasSequenceCompleted" then
          mexFunction.onSession a alps (hasSequenceCompleted ALP_PROJ_IDLE w d)
            (some (if (hasSequenceCompleted ALP_PROJ_IDLE w d).1 then 1 else 0))
        else
          .ok (.returned none, alps, d)

/-- `mexFunction`, the entry point of every command. It calls
`AlpDevAlloc(0, ALP_DEFAULT, &nAlpId1)` and `AlpDevAlloc(1, ALP_DEFAULT, &nAlpId2)`,
uses neither result, and returns (line 651): `prhs` is not read, `plhs[0]` is not
set, the table `alps` is not touched, and the statements after the `return;`
(`mexFunction.dispatch`) are not reached. -/
def mexFunction (_a : MexCall) (alps : List (Option ALPwrapper)) (d : Driver) :
    Except MexFault (MexOutcome × List (Option ALPwrapper) × Driver) :=
  let p1 := d.call (.AlpDevAlloc 0 .ALP_DEFAULT)
  let p2 := p1.2.call (.AlpDevAlloc 1 .ALP_DEFAULT)
  .ok (.returned none, alps, p2.2)

/-! ## Definitions used in the statements and proofs -/

/-- The two driver primitives that start a projection. -/
@[simp]
def DriverCall.isStart : DriverCall → Bool
  | .AlpProjStart _ _ => true
  | .AlpProjStartCont _ _ => true
  | _ => false

/-- The `AlpSeqTiming` calls. -/
@[simp]
def DriverCall.isTiming : DriverCall → Bool
  | .AlpSeqTiming _ _ _ _ _ _ _ => true
  | _ => false

/-- Effect of one logged driver call on the set of sequences resident on the
device: a successful `AlpSeqAlloc` adds the id it returned, a successful
`AlpSeqFree` removes its id, a successful `AlpDevFree` removes them all. -/
def deviceSequences.step (acc : List Int) (e : DriverCall × Response) : List Int :=
  match e.1 with
  | .AlpSeqAlloc _ _ _ => if e.2.status = .ALP_OK then acc ++ [e.2.value] else acc
  | .AlpSeqFree _ id => if e.2.status = .ALP_OK then acc.filter (fun x => x != id) else acc
  | .AlpDevFree _ => if e.2.status = .ALP_OK then [] else acc
  | _ => acc

/-- The two driver primitives of a stop: `AlpProjHalt` and `AlpProjWait`. -/
@[simp]
def DriverCall.isStop : DriverCall → Bool
  | .AlpProjHalt _ => true
  | .AlpProjWait _ => true
  | _ => false

/-- The `AlpSeqFree` calls. -/
@[simp]
def DriverCall.isSeqFree : DriverCall → Bool
  | .AlpSeqFree _ _ => true
  | _ => false

/-- The `AlpDevFree` calls. -/
@[simp]
def DriverCall.isDevFree : DriverCall → Bool
  | .AlpDevFree _ => true
  | _ => false

/-- The sequences resident on the device, read off the driver log: the ids the
driver has allocated and not yet freed. -/
def deviceSequences (log : List (DriverCall × Response)) : List Int :=
  log.foldl deviceSequences.step []

/-- The eight reads of `packInput.byte` with the index arithmetic carried out in
the natural numbers: what `packInput.byte` computes when none of its `int`
operations overflows (`packInput.byte_eq_idealByte`). -/
def packInput.idealByte (Input : List Nat) (InputFrameOffset height x y : Nat) : Option Nat := do
  let a0 ← Input[InputFrameOffset + height * (x * 8 + 0) + y]?
  let a1 ← Input[InputFrameOffset + height * (x * 8 + 1) + y]?
  let a2 ← Input[InputFrameOffset + height * (x * 8 + 2) + y]?
  let a3 ← Input[InputFrameOffset + height * (x * 8 + 3) + y]?
  let a4 ← Input[InputFrameOffset + height * (x * 8 + 4) + y]?
  let a5 ← Input[InputFrameOffset + height * (x * 8 + 5) + y]?
  let a6 ← Input[InputFrameOffset + height * (x * 8 + 6) + y]?
  let a7 ← Input[InputFrameOffset + height * (x * 8 + 7) + y]?
  pure (a0 * 128 ||| a1 * 64 ||| a2 * 32 ||| a3 * 16 ||| a4 * 8 ||| a5 * 4 ||| a6 * 2 ||| a7 * 1)

/-- Offset of output byte `x` of row `y` of frame `frame` in the packed buffer,
as `packInput` computes it. -/
def packInput.pos (stride height frame y x : Nat) : Nat :=
  frame * stride * height + y * stride + x

/-- The byte `packInput` stores for output byte `x` of row `y` of frame `frame`
when its eight reads are inside `Input`. -/
def packInput.value (Input : List Nat) (Input_width height frame y x : Nat) : Nat :=
  (Input.getD (Input_width * height * frame + height * (x * 8 + 0) + y) 0 * 128 |||
    Input.getD (Input_width * height * frame + height * (x * 8 + 1) + y) 0 * 64 |||
    Input.getD (Input_width * height * frame + height * (x * 8 + 2) + y) 0 * 32 |||
    Input.getD (Input_width * height * frame + height * (x * 8 + 3) + y) 0 * 16 |||
    Input.getD (Input_width * height * frame + height * (x * 8 + 4) + y) 0 * 8 |||
    Input.getD (Input_width * height * frame + height * (x * 8 + 5) + y) 0 * 4 |||
    Input.getD (Input_width * height * frame + height * (x * 8 + 6) + y) 0 * 2 |||
    Input.getD (Input_width * height * frame + height * (x * 8 + 7) + y) 0 * 1) % 256

/-- The output bytes `(f, y, x)` already stored when the loops of `packInput`
reach frame `F`, row `Y`, byte `X`. -/
def packInput.done (len height F Y X f y x : Nat) : Prop :=
  x < len ∧ y < height ∧ (f < F ∨ (f = F ∧ (y < Y ∨ (y = Y ∧ x < X))))

/-- Loop invariant of `packInput` at frame `F`, row `Y`, byte `X`: the buffer
`b` has the size of the buffer `b0` the loops started from, holds the packed
value at every byte already stored, and is `b0` everywhere else. -/
def packInput.Inv (Input b0 : List Nat) (Input_width stride height F Y X : Nat)
    (b : List Nat) : Prop :=
  b.length = b0.length ∧
  (∀ f y x, packInput.done (Input_width / 8) height F Y X f y x →
    b[packInput.pos stride height f y x]? =
      some (packInput.value Input Input_width height f y x)) ∧
  (∀ j, (∀ f y x, packInput.done (Input_width / 8) height F Y X f y x →
      j ≠ packInput.pos stride height f y x) → b[j]? = b0[j]?)

/-- A session as `init` leaves it for an XGA DMD: initialised on the 1024 x 768
panel, with device handle 0 and an empty pool. -/
def xgaSession : ALPwrapper :=
  { playingCont := false, allocatedSequences := [], initialized := true,
    nAlpId := 0, _devID := 0, width := 1024, height := 768 }

/-! # Theorems -/

/-! ## Sequence pool -/

theorem Driver.call_log (d : Driver) (c : DriverCall) :
    (d.call c).2.log = d.log ++ [(c, d.reply d.log.length)] := rfl

theorem Driver.call_reply (d : Driver) (c : DriverCall) : (d.call c).2.reply = d.reply := rfl

theorem Driver.call_fst (d : Driver) (c : DriverCall) : (d.call c).1 = d.reply d.log.length := rfl

theorem Driver.call_calls (d : Driver) (c : DriverCall) : (d.call c).2.calls = d.calls ++ [c] := by
  simp [Driver.calls, Driver.call]

theorem Driver.call_length (d : Driver) (c : DriverCall) :
    (d.call c).2.log.length = d.log.length + 1 := by
  simp [Driver.call]

theorem Driver.calls_length (d : Driver) : d.calls.length = d.log.length := by
  simp [Driver.calls]

/-- C5. `allocateStandardSequence(nFrames)`, for every session and driver.
(a) If `AlpSeqAlloc` fails it returns -1, the session (so the pool) is unchanged
and `AlpSeqAlloc` is the only driver call issued. (b) If `AlpSeqAlloc` succeeds
and one of the six `AlpSeqControl` calls reports non-success, all six controls
are issued, then `AlpSeqFree` on the id just allocated; it returns -1 and the
session is unchanged. (c) If all seven calls succeed, it returns the new id, the
pool is the old pool with the new id appended, and no `AlpSeqFree` is issued. -/
theorem allocateStandardSequence_spec (s : ALPwrapper) (d : Driver) (nFrames : Int) :
    ((d.reply d.log.length).status ≠ .ALP_OK →
      (allocateStandardSequence s d nFrames).1 = -1 ∧
      (allocateStandardSequence s d nFrames).2.1 = s ∧
      (allocateStandardSequence s d nFrames).2.2.calls =
        d.calls ++ [.AlpSeqAlloc s.nAlpId 1 nFrames]) ∧
    ((d.reply d.log.length).status = .ALP_OK →
      (∃ i, 1 ≤ i ∧ i ≤ 6 ∧ (d.reply (d.log.length + i)).status ≠ .ALP_OK) →
      (allocateStandardSequence s d nFrames).1 = -1 ∧
      (allocateStandardSequence s d nFrames).2.1 = s ∧
      (allocateStandardSequence s d nFrames).2.2.calls =
        d.calls ++ [.AlpSeqAlloc s.nAlpId 1 nFrames,
          .AlpSeqControl s.nAlpId (d.reply d.log.length).value .ALP_SEQ_REPEAT (.num 1),
          .AlpSeqControl s.nAlpId (d.reply d.log.length).value .ALP_BITNUM (.num 1),
          .AlpSeqControl s.nAlpId (d.reply d.log.length).value .ALP_FIRSTFRAME (.num 0),
          .AlpSeqControl s.nAlpId (d.reply d.log.length).value .ALP_LASTFRAME (.num (nFrames - 1)),
          .AlpSeqControl s.nAlpId (d.reply d.log.length).value .ALP_DATA_FORMAT
            .ALP_DATA_BINARY_TOPDOWN,
          .AlpSeqControl s.nAlpId (d.reply d.log.length).value .ALP_BIN_MODE
            .ALP_BIN_UNINTERRUPTED,
          .AlpSeqFree s.nAlpId (d.reply d.log.length).value]) ∧
    ((∀ i, i ≤ 6 → (d.reply (d.log.length + i)).status = .ALP_OK) →
      (allocateStandardSequence s d nFrames).1 = (d.reply d.log.length).value ∧
      (allocateStandardSequence s d nFrames).2.1 =
        { s with allocatedSequences := s.allocatedSequences ++ [(d.reply d.log.length).value] } ∧
      (allocateStandardSequence s d nFrames).2.2.calls =
        d.calls ++ [.AlpSeqAlloc s.nAlpId 1 nFrames,
          .AlpSeqControl s.nAlpId (d.reply d.log.length).value .ALP_SEQ_REPEAT (.num 1),
          .AlpSeqControl s.nAlpId (d.reply d.log.length).value .ALP_BITNUM (.num 1),
          .AlpSeqControl s.nAlpId (d.reply d.log.length).value .ALP_FIRSTFRAME (.num 0),
          .AlpSeqControl s.nAlpId (d.reply d.log.length).value .ALP_LASTFRAME (.num (nFrames - 1)),
          .AlpSeqControl s.nAlpId (d.reply d.log.length).value .ALP_DATA_FORMAT
            .ALP_DATA_BINARY_TOPDOWN,
          .AlpSeqControl s.nAlpId (d.reply d.log.length).value .ALP_BIN_MODE
            .ALP_BIN_UNINTERRUPTED]) := by
  refine ⟨?_, ?_, ?_⟩
  · intro h
    simp [allocateStandardSequence, Driver.call_fst, Driver.call_calls, h]
  · intro h ⟨i, h1, h6, hi⟩
    have hc : (d.reply (d.log.length + 1)).status ≠ .ALP_OK ∨
        (d.reply (d.log.length + 2)).status ≠ .ALP_OK ∨
        (d.reply (d.log.length + 3)).status ≠ .ALP_OK ∨
        (d.reply (d.log.length + 4)).status ≠ .ALP_OK ∨
        (d.reply (d.log.length + 5)).status ≠ .ALP_OK ∨
        (d.reply (d.log.length + 6)).status ≠ .ALP_OK := by
      have : i = 1 ∨ i = 2 ∨ i = 3 ∨ i = 4 ∨ i = 5 ∨ i = 6 := by omega
      rcases this with rfl | rfl | rfl | rfl | rfl | rfl <;> simp [hi]
    simp only [allocateStandardSequence, Driver.call_fst, Driver.call_calls, Driver.call_length,
      Driver.call_reply, Nat.add_assoc, Nat.reduceAdd, h, ne_eq, not_true_eq_false,
      if_false, hc, if_true, List.append_assoc, List.singleton_append, List.cons_append,
      List.nil_append, and_self]
  · intro h
    have h0 := h 0 (by omega)
    have h1 := h 1 (by omega)
    have h2 := h 2 (by omega)
    have h3 := h 3 (by omega)
    have h4 := h 4 (by omega)
    have h5 := h 5 (by omega)
    have h6 := h 6 (by omega)
    simp only [Nat.add_zero] at h0
    simp only [allocateStandardSequence, Driver.call_fst, Driver.call_calls, Driver.call_length,
      Driver.call_reply, Nat.add_assoc, Nat.reduceAdd, h0, h1, h2, h3, h4, h5, h6,
      ne_eq, not_true_eq_false, if_false, or_self, List.append_assoc, List.singleton_append,
      List.cons_append, List.nil_append, and_self]

/-- C5, witness. With a driver that accepts every call and hands out id 9, the
allocation returns 9 and the pool becomes `[9]`; when the third `AlpSeqControl`
is rejected instead, it returns -1, the pool stays empty and the last driver
call is `AlpSeqFree` on id 9. -/
theorem allocateStandardSequence_spec_witness :
    ((allocateStandardSequence xgaSession { reply := fun _ => ⟨.ALP_OK, 9⟩, log := [] } 5).1 = 9 ∧
      (allocateStandardSequence xgaSession { reply := fun _ => ⟨.ALP_OK, 9⟩, log := [] } 5).2.1
        = { xgaSession with allocatedSequences := [9] }) ∧
    ((allocateStandardSequence xgaSession
        { reply := fun n => if n = 3 then ⟨.error 1, 0⟩ else ⟨.ALP_OK, 9⟩, log := [] } 5).1 = -1 ∧
      (allocateStandardSequence xgaSession
        { reply := fun n => if n = 3 then ⟨.error 1, 0⟩ else ⟨.ALP_OK, 9⟩, log := [] } 5).2.1
        = xgaSession ∧
      (allocateStandardSequence xgaSession
        { reply := fun n => if n = 3 then ⟨.error 1, 0⟩ else ⟨.ALP_OK, 9⟩, log := [] }
          5).2.2.calls.getLast? = some (.AlpSeqFree 0 9)) := by
  have h1 := (allocateStandardSequence_spec xgaSession
    { reply := fun _ => ⟨.ALP_OK, 9⟩, log := [] } 5).2.2 (fun _ _ => rfl)
  have h2 := (allocateStandardSequence_spec xgaSession
    { reply := fun n => if n = 3 then ⟨.error 1, 0⟩ else ⟨.ALP_OK, 9⟩, log := [] } 5).2.1 rfl
    ⟨3, by decide, by decide, by decide⟩
  refine ⟨⟨h1.1, h1.2.1⟩, h2.1, h2.2.1, ?_⟩
  rw [h2.2.2]
  rfl

/-- C6. `releaseSequence(id)`, for every pool, id and driver: afterwards the pool
has no occurrence of `id` and is the old pool with the entries equal to `id`
filtered out (a sublist of the old pool in which every other identifier occurs
as often as before); the return value is true exactly when the `AlpSeqFree` call,
the only driver call issued, returned `ALP_OK`. -/
theorem releaseSequence_spec (s : ALPwrapper) (d : Driver) (id : Int) :
    id ∉ (releaseSequence s d id).2.1.allocatedSequences ∧
    (releaseSequence s d id).2.1.allocatedSequences =
      s.allocatedSequences.filter (fun x => decide (x ≠ id)) ∧
    List.Sublist (releaseSequence s d id).2.1.allocatedSequences s.allocatedSequences ∧
    (∀ x, x ≠ id → List.count x (releaseSequence s d id).2.1.allocatedSequences =
      List.count x s.allocatedSequences) ∧
    ((releaseSequence s d id).1 = true ↔ (d.reply d.log.length).status = .ALP_OK) ∧
    (releaseSequence s d id).2.2.calls = d.calls ++ [.AlpSeqFree s.nAlpId id] := by
  have hf : (releaseSequence s d id).2.1.allocatedSequences =
      s.allocatedSequences.filter (fun x => decide (x ≠ id)) := by
    simp only [releaseSequence, removeAllocatedSequenceFromList]
    congr 1
    funext x
    by_cases hx : x = id <;> simp [hx]
  refine ⟨?_, hf, ?_, ?_, ?_, ?_⟩
  · rw [hf]; simp [List.mem_filter]
  · rw [hf]; exact List.filter_sublist _
  · intro x hx
    rw [hf, List.count_filter]
    simpa using hx
  · simp [releaseSequence, Driver.call_fst]
  · simp [releaseSequence, Driver.call_calls]

/-- C7, amended. Releasing the same id twice in a row, for every session, id (in
the pool or not) and driver: the first call leaves no occurrence of `id` in the
pool, the second call leaves the session exactly as the first one left it, and
the second call issues `AlpSeqFree` again and returns true exactly when that
second `AlpSeqFree` returned `ALP_OK`: the wrapper has no membership check of its
own that would make the second release fail. -/
theorem releaseSequence_twice (s : ALPwrapper) (d : Driver) (id : Int) :
    id ∉ (releaseSequence s d id).2.1.allocatedSequences ∧
    (releaseSequence (releaseSequence s d id).2.1 (releaseSequence s d id).2.2 id).2.1 =
      (releaseSequence s d id).2.1 ∧
    ((releaseSequence (releaseSequence s d id).2.1 (releaseSequence s d id).2.2 id).1 = true ↔
      (d.reply (d.log.length + 1)).status = .ALP_OK) ∧
    (releaseSequence (releaseSequence s d id).2.1 (releaseSequence s d id).2.2 id).2.2.calls =
      d.calls ++ [.AlpSeqFree s.nAlpId id, .AlpSeqFree s.nAlpId id] := by
  refine ⟨?_, ?_, ?_, ?_⟩
  · simp [releaseSequence, removeAllocatedSequenceFromList]
  · simp [releaseSequence, removeAllocatedSequenceFromList, List.filter_filter]
  · simp [releaseSequence, Driver.call_fst, Driver.call_length, Driver.call_reply]
  · simp [releaseSequence, Driver.call_calls, removeAllocatedSequenceFromList]

/-- C7, counterexample. Id 7 is in the pool; the driver rejects the first
`AlpSeqFree` and accepts the second. The second `releaseSequence(7)` then returns
true, not failure. -/
theorem releaseSequence_twice_may_succeed :
    (7 : Int) ∈ ({ xgaSession with allocatedSequences := [7] } :
      ALPwrapper).allocatedSequences ∧
    (releaseSequence
      (releaseSequence { xgaSession with allocatedSequences := [7] }
        { reply := fun n => if n = 0 then ⟨.error 1, 0⟩ else ⟨.ALP_OK, 0⟩, log := [] } 7).2.1
      (releaseSequence { xgaSession with allocatedSequences := [7] }
        { reply := fun n => if n = 0 then ⟨.error 1, 0⟩ else ⟨.ALP_OK, 0⟩, log := [] } 7).2.2
      7).1 = true := by
  decide

theorem releaseAllSequences.loop_calls (nAlpId : Int) (l : List Int) (d : Driver) (b : Bool) :
    (releaseAllSequences.loop nAlpId l d b).2.calls =
      d.calls ++ l.map (fun id => DriverCall.AlpSeqFree nAlpId id) ∧
    (releaseAllSequences.loop nAlpId l d b).2.reply = d.reply ∧
    ((releaseAllSequences.loop nAlpId l d b).1 = true ↔
      b = true ∧ ∀ i, i < l.length → (d.reply (d.log.length + i)).status = .ALP_OK) := by
  induction l generalizing d b with
  | nil => simp [releaseAllSequences.loop]
  | cons it rest ih =>
    obtain ⟨h1, h2, h3⟩ := ih (d.call (.AlpSeqFree nAlpId it)).2
      (b && decide ((d.call (.AlpSeqFree nAlpId it)).1.status = .ALP_OK))
    refine ⟨?_, ?_, ?_⟩
    · simp [releaseAllSequences.loop, h1, Driver.call_calls]
    · simp [releaseAllSequences.loop, h2, Driver.call_reply]
    · rw [releaseAllSequences.loop, h3]
      simp only [Driver.call_fst, Driver.call_reply,
        Driver.call_length, Bool.and_eq_true, decide_eq_true_eq, List.length_cons]
      constructor
      · rintro ⟨⟨hb, h0⟩, hr⟩
        refine ⟨hb, fun i hi => ?_⟩
        rcases i with _ | i
        · simpa using h0
        · have := hr i (by omega)
          rw [show d.log.length + (i + 1) = d.log.length + 1 + i by omega]
          exact this
      · rintro ⟨hb, hr⟩
        refine ⟨⟨hb, by simpa using hr 0 (by omega)⟩, fun i hi => ?_⟩
        have := hr (i + 1) (by omega)
        rw [show d.log.length + 1 + i = d.log.length + (i + 1) by omega]
        exact this

/-- C8. `releaseAllSequences`, for every session and driver: the driver calls it
issues are exactly one `AlpSeqFree` per pool entry, in pool order (a failed free
does not stop the loop); afterwards the pool is empty; it returns true exactly
when every one of these frees returned `ALP_OK`, and so returns true on an empty
pool. -/
theorem releaseAllSequences_spec (s : ALPwrapper) (d : Driver) :
    (releaseAllSequences s d).2.2.calls =
      d.calls ++ s.allocatedSequences.map (fun id => DriverCall.AlpSeqFree s.nAlpId id) ∧
    (releaseAllSequences s d).2.1.allocatedSequences = [] ∧
    ((releaseAllSequences s d).1 = true ↔
      ∀ i, i < s.allocatedSequences.length → (d.reply (d.log.length + i)).status = .ALP_OK) ∧
    (releaseAllSequences { s with allocatedSequences := [] } d).1 = true := by
  obtain ⟨h1, _, h3⟩ := releaseAllSequences.loop_calls s.nAlpId s.allocatedSequences d true
  refine ⟨?_, ?_, ?_, ?_⟩
  · simpa [releaseAllSequences] using h1
  · simp [releaseAllSequences]
  · simpa [releaseAllSequences] using h3
  · simp [releaseAllSequences, releaseAllSequences.loop]

/-! ## Playback -/

/-! ### Rounding -/

theorem Double.div_finite (a b : ℚ) (hb : b ≠ 0) :
    (Double.finite a / Double.finite b) = Double.round (a / b) := by
  show Double.div _ _ = _
  simp only [Double.div, if_neg hb]

theorem Double.mul_finite (a b : ℚ) :
    (Double.finite a * Double.finite b) = Double.round (a * b) := rfl

theorem Double.log_eq (q : ℚ) (k : Int) (h0 : 0 < q) (h1 : (2 : ℚ) ^ k ≤ q)
    (h2 : q < (2 : ℚ) ^ (k + 1)) : Int.log 2 q = k := by
  have hb : 1 < 2 := by norm_num
  have a : k ≤ Int.log 2 q := (Int.zpow_le_iff_le_log hb h0).1 (by exact_mod_cast h1)
  have b : Int.log 2 q < k + 1 := (Int.lt_zpow_iff_log_lt hb h0).1 (by exact_mod_cast h2)
  omega

theorem Double.nearestEven_eq (q : ℚ) (m : Int) (h1 : (m : ℚ) - 1 / 2 < q)
    (h2 : q < m + 1 / 2) : Double.nearestEven q = m := by
  unfold Double.nearestEven
  by_cases hq : (m : ℚ) ≤ q
  · have hf : ⌊q⌋ = m := Int.floor_eq_iff.2 ⟨hq, by linarith⟩
    rw [hf, if_pos (by linarith)]
  · have hf : ⌊q⌋ = m - 1 := Int.floor_eq_iff.2 ⟨by push_cast; linarith, by push_cast; linarith⟩
    rw [hf, if_neg (by push_cast; linarith), if_pos (by push_cast; linarith)]
    ring

/-- Rounding of a positive value that is not half-way between two neighbours:
the result is `m * 2 ^ e` for the significand `m` and the exponent `e` that
bracket the value. -/
theorem Double.round_eq (q : ℚ) (e m : Int) (h0 : 0 < q) (he : -1074 ≤ e)
    (h1 : (2 : ℚ) ^ (e + 52) ≤ q) (h2 : q < (2 : ℚ) ^ (e + 53))
    (h3 : ((m : ℚ) - 1 / 2) * 2 ^ e < q) (h4 : q < ((m : ℚ) + 1 / 2) * 2 ^ e)
    (h5 : (m : ℚ) * 2 ^ e < 2 ^ 1024) (hm : 0 ≤ m) :
    Double.round q = .finite (m * 2 ^ e) := by
  have hl : Int.log 2 |q| = e + 52 := by
    rw [abs_of_pos h0]
    exact Double.log_eq q (e + 52) h0 h1 (by rw [show e + 52 + 1 = e + 53 by ring]; exact h2)
  have hu : Double.ulpExponent q = e := by
    unfold Double.ulpExponent
    rw [hl]; omega
  have hpos : (0 : ℚ) < 2 ^ e := by positivity
  have hn : Double.nearestEven (q / 2 ^ e) = m :=
    Double.nearestEven_eq _ m (by rw [lt_div_iff₀ hpos]; exact h3)
      (by rw [div_lt_iff₀ hpos]; exact h4)
  unfold Double.round
  simp only [hu, hn]
  rw [if_pos]
  rw [abs_of_nonneg (mul_nonneg (Int.cast_nonneg.2 hm) hpos.le)]
  exact h5

theorem Double.nearestEven_error (q : ℚ) : |(Double.nearestEven q : ℚ) - q| ≤ 1 / 2 := by
  have h1 := Int.floor_le q
  have h2 := Int.lt_floor_add_one q
  unfold Double.nearestEven
  split_ifs with a b c
  · rw [abs_le]; constructor <;> linarith
  · rw [abs_le]; push_cast; constructor <;> linarith
  · rw [abs_le]; constructor <;> linarith
  · rw [abs_le]; push_cast; constructor <;> linarith

/-- Rounding in the normal range is finite and has a relative error of at most
`2 ^ (-53)`. -/
theorem Double.round_error (q : ℚ) (hlo : (2 : ℚ) ^ (-1022 : Int) ≤ q) (hhi : q < 2 ^ 1023) :
    ∃ r : ℚ, Double.round q = .finite r ∧ |r - q| ≤ q * 2 ^ (-53 : Int) := by
  have h0 : 0 < q := lt_of_lt_of_le (by positivity) hlo
  have hb : 1 < 2 := by norm_num
  have hL1 : ((2 : ℕ) : ℚ) ^ Int.log 2 q ≤ q := Int.zpow_log_le_self hb h0
  have hL3 : (-1022 : Int) ≤ Int.log 2 q := (Int.zpow_le_iff_le_log hb h0).1 (by exact_mod_cast hlo)
  have hz : ((2 : ℕ) : ℚ) ^ (1023 : Int) = 2 ^ 1023 := zpow_natCast (2 : ℚ) 1023
  have hL4 : Int.log 2 q < 1023 := (Int.lt_zpow_iff_log_lt hb h0).1 (by rw [hz]; exact hhi)
  have hu : Double.ulpExponent q = Int.log 2 q - 52 := by
    unfold Double.ulpExponent
    rw [abs_of_pos h0]; omega
  set e := Int.log 2 q - 52 with he
  have hpos : (0 : ℚ) < 2 ^ e := by positivity
  have hn := Double.nearestEven_error (q / 2 ^ e)
  set m := Double.nearestEven (q / 2 ^ e) with hm
  have herr : |(m : ℚ) * 2 ^ e - q| ≤ 2 ^ e / 2 := by
    have : (m : ℚ) * 2 ^ e - q = ((m : ℚ) - q / 2 ^ e) * 2 ^ e := by
      field_simp
    rw [this, abs_mul, abs_of_pos hpos]
    calc |(m : ℚ) - q / 2 ^ e| * 2 ^ e ≤ 1 / 2 * 2 ^ e := by gcongr
      _ = 2 ^ e / 2 := by ring
  have hhalf : (2 : ℚ) ^ e / 2 ≤ q * 2 ^ (-53 : Int) := by
    have h53 : (2 : ℚ) ^ e / 2 = 2 ^ Int.log 2 q * 2 ^ (-53 : Int) := by
      rw [he, show Int.log 2 q - 52 = Int.log 2 q + (-52) by ring, zpow_add₀ (by norm_num)]
      norm_num
      ring
    rw [h53]
    have : (2 : ℚ) ^ Int.log 2 q ≤ q := by exact_mod_cast hL1
    gcongr
  refine ⟨(m : ℚ) * 2 ^ e, ?_, le_trans herr hhalf⟩
  unfold Double.round
  simp only [hu, ← hm]
  rw [if_pos]
  have h1 : |(m : ℚ) * 2 ^ e| ≤ q + q * 2 ^ (-53 : Int) := by
    have := abs_sub_abs_le_abs_sub ((m : ℚ) * 2 ^ e) q
    rw [abs_of_pos h0] at this
    linarith [le_trans herr hhalf]
  have h2 : q + q * 2 ^ (-53 : Int) < 2 ^ 1024 := by
    have : q * 2 ^ (-53 : Int) ≤ q := by
      have : (2 : ℚ) ^ (-53 : Int) ≤ 1 := by norm_num
      nlinarith
    have h3 : (2 : ℚ) ^ 1024 = 2 ^ 1023 * 2 := by rw [← pow_succ]
    linarith
  linarith

/-- Conversion to `long` of a non-negative value inside the range. -/
theorem doubleToLong_finite (q : ℚ) (n : Int) (h0 : 0 ≤ n) (hn : n ≤ LONG_MAX)
    (h1 : (n : ℚ) ≤ q) (h2 : q < n + 1) : doubleToLong (.finite q) = n := by
  have hq : (0 : ℚ) ≤ q := le_trans (by exact_mod_cast h0) h1
  have hfl : ⌊q⌋ = n := Int.floor_eq_iff.2 ⟨h1, h2⟩
  have ht : Int.tdiv q.num q.den = n := by
    rw [← hfl, Rat.floor_def, Int.div_def]
    have hnum : 0 ≤ q.num := Rat.num_nonneg.2 hq
    exact Int.tdiv_eq_ediv hnum (by exact_mod_cast Nat.zero_le _)
  simp only [doubleToLong, ht]
  rw [if_pos ⟨by unfold LONG_MIN; omega, hn⟩]

/-- The picture time at 30 Hz: `1.0 / 30` rounds to `4803839602528529 * 2 ^ (-57)`,
its product with 1000000 to `4581298449066667 * 2 ^ (-37)`, a little above
33333.33, and the conversion gives 33333. -/
theorem pictureTime_30 : doubleToLong (1 / 30 * 1000000) = 33333 := by
  have h1 : (1 / 30 : Double) = .finite (4803839602528529 * 2 ^ (-57 : Int)) := by
    show Double.finite 1 / Double.finite 30 = _
    rw [Double.div_finite _ _ (by norm_num)]
    exact Double.round_eq _ (-57) 4803839602528529 (by norm_num) (by norm_num) (by norm_num)
      (by norm_num) (by norm_num) (by norm_num) (by norm_num) (by norm_num)
  have h2 : (1 / 30 * 1000000 : Double) = .finite (4581298449066667 * 2 ^ (-37 : Int)) := by
    rw [h1]
    show Double.finite _ * Double.finite 1000000 = _
    rw [Double.mul_finite]
    exact Double.round_eq _ (-37) 4581298449066667 (by norm_num) (by norm_num) (by norm_num)
      (by norm_num) (by norm_num) (by norm_num) (by norm_num) (by norm_num)
  rw [h2]
  exact doubleToLong_finite _ 33333 (by decide) (by decide) (by norm_num) (by norm_num)

/-- The picture time at the `double` nearest to 0.1, which is
`3602879701896397 * 2 ^ (-55)`, a little above 0.1: `1.0 / f` rounds to exactly
10 and the product with 1000000 is exactly 10000000. -/
theorem pictureTime_tenth :
    doubleToLong (1 / Double.finite (3602879701896397 / 36028797018963968) * 1000000) =
      10000000 := by
  have h1 : (1 / Double.finite (3602879701896397 / 36028797018963968) : Double) =
      .finite (5629499534213120 * 2 ^ (-49 : Int)) := by
    show Double.finite 1 / Double.finite _ = _
    rw [Double.div_finite _ _ (by norm_num)]
    exact Double.round_eq _ (-49) 5629499534213120 (by norm_num) (by norm_num) (by norm_num)
      (by norm_num) (by norm_num) (by norm_num) (by norm_num) (by norm_num)
  have h2 : (1 / Double.finite (3602879701896397 / 36028797018963968) * 1000000 : Double) =
      .finite (5368709120000000 * 2 ^ (-29 : Int)) := by
    rw [h1]
    show Double.finite _ * Double.finite 1000000 = _
    rw [Double.mul_finite]
    exact Double.round_eq _ (-29) 5368709120000000 (by norm_num) (by norm_num) (by norm_num)
      (by norm_num) (by norm_num) (by norm_num) (by norm_num) (by norm_num)
  rw [h2]
  exact doubleToLong_finite _ 10000000 (by decide) (by decide) (by norm_num) (by norm_num)

theorem Double.two_zpow_le (a b : Int) (h : a ≤ b) : (2 : ℚ) ^ a ≤ 2 ^ b :=
  zpow_le_zpow_right₀ (by norm_num) h

/-- The picture time of a frame rate `f` with `1000000 / f` between 1 and
`LONG_MAX`: the two roundings change the exact quotient by a relative error of
at most `2 ^ (-51)` before the truncation. -/
theorem pictureTime_error (f : ℚ) (hf : 0 < f) (h1 : 1 ≤ 1000000 / f)
    (h2 : 1000000 / f ≤ 2147483647) :
    ∃ δ : ℚ, |δ| ≤ 2 ^ (-51 : Int) ∧
      doubleToLong (1 / Double.finite f * 1000000) = ⌊1000000 / f * (1 + δ)⌋ := by
  have hu : (2 : ℚ) ^ (-53 : Int) = 1 / 9007199254740992 := by norm_num
  have hu51 : (2 : ℚ) ^ (-51 : Int) = 1 / 2251799813685248 := by norm_num
  have hT : 1000000 / f = 1000000 * (1 / f) := by ring
  have hinv : 0 < 1 / f := by positivity
  have hlow : (2 : ℚ) ^ (-1022 : Int) ≤ 1 / 1048576 :=
    le_trans (Double.two_zpow_le (-1022) (-20) (by norm_num)) (by norm_num)
  have hhigh : (8589934592 : ℚ) ≤ 2 ^ 1023 :=
    le_trans (by norm_num) (pow_le_pow_right₀ (by norm_num) (by norm_num : 33 ≤ 1023))
  obtain ⟨r1, hr1, he1⟩ := Double.round_error (1 / f) (le_trans hlow (by linarith))
    (lt_of_lt_of_le (by linarith) hhigh)
  rw [hu, abs_le] at he1
  have hq2lo : 1 / 2 ≤ r1 * 1000000 := by nlinarith [he1.1, he1.2]
  have hq2hi : r1 * 1000000 ≤ 2147483648 := by nlinarith [he1.1, he1.2]
  obtain ⟨r2, hr2, he2⟩ := Double.round_error (r1 * 1000000) (le_trans hlow (by linarith))
    (lt_of_lt_of_le (by linarith) hhigh)
  rw [hu, abs_le] at he2
  have hTpos : 0 < 1000000 / f := by positivity
  refine ⟨r2 / (1000000 / f) - 1, ?_, ?_⟩
  · rw [hu51, abs_le]
    constructor
    · rw [le_sub_iff_add_le, le_div_iff₀ hTpos]
      nlinarith [he1.1, he1.2, he2.1, he2.2]
    · rw [sub_le_iff_le_add, div_le_iff₀ hTpos]
      nlinarith [he1.1, he1.2, he2.1, he2.2]
  · have hmul : 1000000 / f * (1 + (r2 / (1000000 / f) - 1)) = r2 := by
      field_simp
      ring
    rw [hmul]
    have hdiv : (1 / Double.finite f * 1000000 : Double) = Double.finite r2 := by
      show Double.finite 1 / Double.finite f * Double.finite 1000000 = _
      rw [Double.div_finite _ _ hf.ne', hr1]
      show Double.finite r1 * Double.finite 1000000 = _
      rw [Double.mul_finite]
      exact_mod_cast hr2
    rw [hdiv]
    have hr2pos : 0 ≤ r2 := by nlinarith [he2.1]
    have hr2hi : r2 < 2147483648 := by nlinarith [he1.1, he1.2, he2.1, he2.2]
    apply doubleToLong_finite
    · exact Int.floor_nonneg.2 hr2pos
    · have : ⌊r2⌋ < 2147483648 := Int.floor_lt.2 (by exact_mod_cast hr2hi)
      unfold LONG_MAX; omega
    · exact Int.floor_le r2
    · exact Int.lt_floor_add_one r2

/-- A value within a relative error of `2 ^ (-51)` of `t ≤ 2147483647` truncates
to the truncation of `t` or to one of its two neighbours. -/
theorem pictureTime_near (t δ : ℚ) (h1 : 1 ≤ t) (h2 : t ≤ 2147483647)
    (hδ : |δ| ≤ 2 ^ (-51 : Int)) : |⌊t * (1 + δ)⌋ - ⌊t⌋| ≤ 1 := by
  have hu51 : (2 : ℚ) ^ (-51 : Int) = 1 / 2251799813685248 := by norm_num
  rw [hu51, abs_le] at hδ
  have ha : t * (1 + δ) < t + 1 := by nlinarith [hδ.1, hδ.2]
  have hb : t - 1 < t * (1 + δ) := by nlinarith [hδ.1, hδ.2]
  have hc : ⌊t * (1 + δ)⌋ ≤ ⌊t + 1⌋ := Int.floor_le_floor ha.le
  have hd : ⌊t - 1⌋ ≤ ⌊t * (1 + δ)⌋ := Int.floor_le_floor hb.le
  rw [Int.floor_add_one] at hc
  rw [Int.floor_sub_one] at hd
  rw [abs_le]
  constructor <;> omega

theorem runUploadedSequence.loop_not_mem (s : ALPwrapper) (d : Driver) (id : Int) (f : Double)
    (c : Bool) (n : Int) (l : List Int) (h : id ∉ l) :
    runUploadedSequence.loop s d id f c n l = (false, s, d) := by
  induction l with
  | nil => rfl
  | cons it rest ih =>
    have h1 : it ≠ id := fun e => h (by simp [e])
    have h2 : id ∉ rest := fun e => h (by simp [e])
    rw [runUploadedSequence.loop, if_neg h1, ih h2]

theorem runUploadedSequence.loop_mem (s : ALPwrapper) (d : Driver) (id : Int) (f : Double)
    (c : Bool) (n : Int) (l : List Int) (h : id ∈ l) :
    runUploadedSequence.loop s d id f c n l = runUploadedSequence.loop s d id f c n [id] := by
  induction l with
  | nil => simp at h
  | cons it rest ih =>
    by_cases h1 : it = id
    · subst h1
      rw [runUploadedSequence.loop, runUploadedSequence.loop, if_pos rfl, if_pos rfl]
    · have h2 : id ∈ rest := by
        rcases List.mem_cons.mp h with e | e
        · exact absurd e.symm h1
        · exact e
      rw [runUploadedSequence.loop, if_neg h1, ih h2]


theorem stopSequence_calls (s : ALPwrapper) (d : Driver) :
    (stopSequence s d).2.2.calls = d.calls ++ [.AlpProjHalt s.nAlpId, .AlpProjWait s.nAlpId] := by
  simp [stopSequence, Driver.call_calls]

/-- The driver calls issued by `runUploadedSequence` on a pooled id. -/
theorem runUploadedSequence_calls (s : ALPwrapper) (d : Driver) (id : Int) (f : Double)
    (c : Bool) (n : Int) (hid : id ∈ s.allocatedSequences) :
    (runUploadedSequence s d id f c n).2.2.calls =
      d.calls ++ ((if c then [] else [.AlpSeqControl s.nAlpId id .ALP_SEQ_REPEAT (.num n)]) ++
        [.AlpSeqTiming s.nAlpId id (.num 0) (doubleToLong (1 / f * 1000000)) 0
          (Int.tdiv (doubleToLong (1 / f * 1000000)) 2) 0] ++
        (if (d.reply (d.log.length + (if c then 0 else 1))).status = .ALP_OK then
          (if c then
            (if s.playingCont then [.AlpProjHalt s.nAlpId, .AlpProjWait s.nAlpId] else []) ++
              [.AlpProjStartCont s.nAlpId id]
          else [.AlpProjStart s.nAlpId id])
        else [])) := by
  unfold runUploadedSequence
  rw [runUploadedSequence.loop_mem s d id f c n _ hid]
  cases c
  · by_cases hst : (d.reply (d.log.length + 1)).status = .ALP_OK <;>
      simp [runUploadedSequence.loop, Driver.call_fst, Driver.call_reply, Driver.call_length,
        Driver.call_calls, hst]
  · cases hpc : s.playingCont <;>
      by_cases hst : (d.reply d.log.length).status = .ALP_OK <;>
      simp [runUploadedSequence.loop, Driver.call_fst, Driver.call_reply, Driver.call_length,
        Driver.call_calls, hst, hpc, stopSequence_calls, stopSequence]

/-- C9. `runUploadedSequence` rejects. If `id` is not in the pool it returns
false and neither the session nor the driver changes: no driver call is issued.
If `id` is in the pool and the `AlpSeqTiming` push reports non-success, it
returns false, the session (so `playingCont` and the pool) is unchanged, and the
driver calls issued are the repeat-count control (bounded playback only) and the
timing push: none of them is `AlpProjStart` or `AlpProjStartCont`. -/
theorem runUploadedSequence_rejected (s : ALPwrapper) (d : Driver) (id : Int) (f : Double)
    (c : Bool) (n : Int) :
    (id ∉ s.allocatedSequences → runUploadedSequence s d id f c n = (false, s, d)) ∧
    (id ∈ s.allocatedSequences →
      (d.reply (d.log.length + (if c then 0 else 1))).status ≠ .ALP_OK →
      (runUploadedSequence s d id f c n).1 = false ∧
      (runUploadedSequence s d id f c n).2.1 = s ∧
      (runUploadedSequence s d id f c n).2.2.calls =
        d.calls ++ (if c then [] else [.AlpSeqControl s.nAlpId id .ALP_SEQ_REPEAT (.num n)]) ++
          [.AlpSeqTiming s.nAlpId id (.num 0) (doubleToLong (1 / f * 1000000)) 0
            (Int.tdiv (doubleToLong (1 / f * 1000000)) 2) 0] ∧
      ∀ call ∈ (runUploadedSequence s d id f c n).2.2.calls.drop d.calls.length,
        call.isStart = false) := by
  refine ⟨fun h => runUploadedSequence.loop_not_mem s d id f c n _ h, fun h hfail => ?_⟩
  have hcalls := runUploadedSequence_calls s d id f c n h
  rw [if_neg hfail] at hcalls
  refine ⟨?_, ?_, ?_, ?_⟩
  · unfold runUploadedSequence
    rw [runUploadedSequence.loop_mem s d id f c n _ h]
    cases c
    · simp only [Bool.false_eq_true, if_false] at hfail
      simp [runUploadedSequence.loop, Driver.call_fst, Driver.call_reply, Driver.call_length, hfail]
    · simp only [if_true, Nat.add_zero] at hfail
      simp [runUploadedSequence.loop, Driver.call_fst, Driver.call_reply, Driver.call_length, hfail]
  · unfold runUploadedSequence
    rw [runUploadedSequence.loop_mem s d id f c n _ h]
    cases c
    · simp only [Bool.false_eq_true, if_false] at hfail
      simp [runUploadedSequence.loop, Driver.call_fst, Driver.call_reply, Driver.call_length, hfail]
    · simp only [if_true, Nat.add_zero] at hfail
      simp [runUploadedSequence.loop, Driver.call_fst, Driver.call_reply, Driver.call_length, hfail]
  · rw [hcalls]; simp
  · rw [hcalls]
    intro call hcall
    rw [List.drop_left] at hcall
    cases c <;> simp at hcall <;> rcases hcall with rfl | rfl <;> rfl

/-- C9, witness. On a session whose pool is `[5]`: a run of id 6 changes nothing
and returns false; a continuous run of id 5 whose timing push is rejected returns
false and leaves the session as it was. -/
theorem runUploadedSequence_rejected_witness :
    runUploadedSequence { xgaSession with allocatedSequences := [5] }
        { reply := fun _ => ⟨.error 1, 0⟩, log := [] } 6 30 true 1 =
      (false, { xgaSession with allocatedSequences := [5] },
        { reply := fun _ => ⟨.error 1, 0⟩, log := [] }) ∧
    (runUploadedSequence { xgaSession with allocatedSequences := [5] }
        { reply := fun _ => ⟨.error 1, 0⟩, log := [] } 5 30 true 1).1 = false ∧
    (runUploadedSequence { xgaSession with allocatedSequences := [5] }
        { reply := fun _ => ⟨.error 1, 0⟩, log := [] } 5 30 true 1).2.1 =
      { xgaSession with allocatedSequences := [5] } := by
  have h1 := (runUploadedSequence_rejected { xgaSession with allocatedSequences := [5] }
    { reply := fun _ => ⟨.error 1, 0⟩, log := [] } 6 30 true 1).1 (by decide)
  have h2 := (runUploadedSequence_rejected { xgaSession with allocatedSequences := [5] }
    { reply := fun _ => ⟨.error 1, 0⟩, log := [] } 5 30 true 1).2 (by decide) (by decide)
  exact ⟨h1, h2.1, h2.2.1⟩

/-- C10 (amended). For every frame rate `f` and every pooled id, the timing push
of `runUploadedSequence` (its first driver call for continuous playback, its
second for bounded playback) is `AlpSeqTiming` with IlluminateTime 0, PictureTime
equal to the conversion to `long` of the `double` product `1.0 / f * 1000000`,
each of the two operations rounded to the nearest `double`, SynchDelay 0,
SynchPulseWidth equal to PictureTime divided by 2 toward zero and TriggerInDelay 0,
and it is the only `AlpSeqTiming` call issued. For a finite `f > 0` with
`1000000 / f` between 1 and 2147483647 the picture time is
`⌊1000000 / f * (1 + δ)⌋` for some `|δ| ≤ 2 ^ (-51)`, hence `⌊1000000 / f⌋` or one
of its two neighbours. For `f = 30` PictureTime is 33333 and SynchPulseWidth
16666. -/
theorem runUploadedSequence_timing (s : ALPwrapper) (d : Driver) (id : Int) (f : Double)
    (c : Bool) (n : Int) (hid : id ∈ s.allocatedSequences) :
    ((runUploadedSequence s d id f c n).2.2.calls.drop d.calls.length)[if c then 0 else 1]? =
      some (.AlpSeqTiming s.nAlpId id (.num 0) (doubleToLong (1 / f * 1000000)) 0
        (Int.tdiv (doubleToLong (1 / f * 1000000)) 2) 0) ∧
    (∀ call ∈ (runUploadedSequence s d id f c n).2.2.calls.drop d.calls.length,
      call.isTiming = true →
        call = .AlpSeqTiming s.nAlpId id (.num 0) (doubleToLong (1 / f * 1000000)) 0
          (Int.tdiv (doubleToLong (1 / f * 1000000)) 2) 0) ∧
    (∀ q : ℚ, f = .finite q → 0 < q → 1 ≤ 1000000 / q → 1000000 / q ≤ 2147483647 →
      (∃ δ : ℚ, |δ| ≤ 2 ^ (-51 : Int) ∧
        doubleToLong (1 / f * 1000000) = ⌊1000000 / q * (1 + δ)⌋) ∧
      |doubleToLong (1 / f * 1000000) - ⌊1000000 / q⌋| ≤ 1 ∧
      Int.tdiv (doubleToLong (1 / f * 1000000)) 2 = doubleToLong (1 / f * 1000000) / 2) ∧
    (f = 30 → doubleToLong (1 / f * 1000000) = 33333 ∧
      Int.tdiv (doubleToLong (1 / f * 1000000)) 2 = 16666) := by
  have hcalls := runUploadedSequence_calls s d id f c n hid
  rw [hcalls, List.drop_left]
  refine ⟨?_, ?_, ?_, ?_⟩
  · cases c <;> simp
  · intro call hcall ht
    cases c <;> cases s.playingCont <;> simp at hcall <;> aesop
  · rintro q rfl hq h1 h2
    obtain ⟨δ, hδ, hP⟩ := pictureTime_error q hq h1 h2
    refine ⟨⟨δ, hδ, hP⟩, ?_, ?_⟩
    · rw [hP]
      exact pictureTime_near _ δ h1 h2 hδ
    · rw [hP]
      refine Int.tdiv_eq_ediv (Int.floor_nonneg.2 ?_) (by norm_num)
      have hu51 : (2 : ℚ) ^ (-51 : Int) = 1 / 2251799813685248 := by norm_num
      rw [hu51, abs_le] at hδ
      nlinarith [hδ.1, hδ.2]
  · rintro rfl
    rw [pictureTime_30]
    exact ⟨rfl, by decide⟩

/-- C10, witness: bounded playback of pooled sequence 5 at 30 Hz pushes
PictureTime 33333 and SynchPulseWidth 16666. -/
theorem runUploadedSequence_timing_witness :
    ((runUploadedSequence { xgaSession with allocatedSequences := [5] }
        { reply := fun _ => ⟨.ALP_OK, 0⟩, log := [] } 5 30 false 3).2.2.calls.drop 0)[1]? =
      some (.AlpSeqTiming 0 5 (.num 0) 33333 0 16666 0) := by
  have h := runUploadedSequence_timing { xgaSession with allocatedSequences := [5] }
    { reply := fun _ => ⟨.ALP_OK, 0⟩, log := [] } 5 30 false 3 (by decide)
  obtain ⟨h1, -, -, h3⟩ := h
  obtain ⟨a, b⟩ := h3 rfl
  rw [b, a] at h1
  exact h1

/-- C10, counterexample: at the frame rate `3602879701896397 * 2 ^ (-55)`, the
`double` nearest to 0.1, continuous playback of pooled sequence 5 pushes
PictureTime 10000000 and SynchPulseWidth 5000000, while `1000000 / f` truncated
toward zero is 9999999. -/
theorem runUploadedSequence_timing_not_exact :
    (runUploadedSequence { xgaSession with allocatedSequences := [5] }
        { reply := fun _ => ⟨.ALP_OK, 0⟩, log := [] } 5
        (.finite (3602879701896397 / 36028797018963968)) true 1).2.2.calls[0]? =
      some (.AlpSeqTiming 0 5 (.num 0) 10000000 0 5000000 0) ∧
    Int.tdiv ((1000000 : ℚ) / (3602879701896397 / 36028797018963968)).num
      ((1000000 : ℚ) / (3602879701896397 / 36028797018963968)).den = 9999999 ∧
    ⌊(1000000 : ℚ) / (3602879701896397 / 36028797018963968)⌋ = 9999999 := by
  refine ⟨?_, ?_, ?_⟩
  · rw [runUploadedSequence_calls _ _ _ _ _ _ (by decide), pictureTime_tenth]
    rfl
  · have h : (1000000 : ℚ) / (3602879701896397 / 36028797018963968) =
        36028797018963968000000 / 3602879701896397 := by norm_num
    rw [h]
    have hfl : ⌊(36028797018963968000000 / 3602879701896397 : ℚ)⌋ = 9999999 := by
      norm_num [Int.floor_eq_iff]
    rw [← hfl, Rat.floor_def, Int.div_def]
    exact Int.tdiv_eq_ediv (Rat.num_nonneg.2 (by norm_num)) (by exact_mod_cast Nat.zero_le _)
  · norm_num [Int.floor_eq_iff]

/-! ## Pool and device residency -/

theorem deviceSequences_append (l : List (DriverCall × Response)) (e : DriverCall × Response) :
    deviceSequences (l ++ [e]) = deviceSequences.step (deviceSequences l) e := by
  simp [deviceSequences, List.foldl_append]

/-- The sibling of `prepareCalibrationSequence` keeps the pool resident: if every
pooled id is resident on the device and the driver does not hand out an id that
is already in the pool, every pooled id is resident after
`allocateStandardSequence`. -/
theorem allocateStandardSequence_keeps_pool_resident (s : ALPwrapper) (d : Driver)
    (nFrames : Int)
    (hinv : ∀ id ∈ s.allocatedSequences, id ∈ deviceSequences d.log)
    (hfresh : (d.reply d.log.length).value ∉ s.allocatedSequences) :
    ∀ id ∈ (allocateStandardSequence s d nFrames).2.1.allocatedSequences,
      id ∈ deviceSequences (allocateStandardSequence s d nFrames).2.2.log := by
  intro id hid
  unfold allocateStandardSequence at hid ⊢
  by_cases h0 : (d.reply d.log.length).status = .ALP_OK
  · simp only [Driver.call_fst, h0, ne_eq, not_true_eq_false, if_false] at hid ⊢
    split_ifs at hid ⊢ with hc
    · have hne : id ≠ (d.reply d.log.length).value := fun e => hfresh (e ▸ hid)
      simp only [Driver.call_log, deviceSequences_append, deviceSequences.step, h0, if_true]
      split_ifs
      · simp [List.mem_filter, hinv id hid, hne]
      · simp [hinv id hid]
    · simp only [Driver.call_log, deviceSequences_append, deviceSequences.step, h0, if_true]
      rcases List.mem_append.mp hid with h | h
      · simp [hinv id h]
      · simp at h; simp [h]
  · simp only [Driver.call_fst, h0, ne_eq, not_false_eq_true, if_true] at hid ⊢
    simp only [Driver.call_log, deviceSequences_append, deviceSequences.step, h0, if_false]
    exact hinv id hid

/-- C4, failing input. On a freshly constructed session,
`prepareCalibrationSequence(1)` with a driver that allocates sequence 5 and
rejects the first `AlpSeqControl`: the operation frees sequence 5 on the device
(its last driver call, which succeeds) and returns false, yet 5 is in the pool
and no longer resident on the device. -/
theorem prepareCalibrationSequence_leaves_freed_id_in_pool :
    (prepareCalibrationSequence (ALPwrapper.new 0 1024 768)
      { reply := fun n => if n = 1 then ⟨.error 1, 0⟩ else ⟨.ALP_OK, 5⟩, log := [] }
      1 0 0 0 0 []).1 = false ∧
    (5 : Int) ∈ (prepareCalibrationSequence (ALPwrapper.new 0 1024 768)
      { reply := fun n => if n = 1 then ⟨.error 1, 0⟩ else ⟨.ALP_OK, 5⟩, log := [] }
      1 0 0 0 0 []).2.1.allocatedSequences ∧
    (5 : Int) ∉ deviceSequences (prepareCalibrationSequence (ALPwrapper.new 0 1024 768)
      { reply := fun n => if n = 1 then ⟨.error 1, 0⟩ else ⟨.ALP_OK, 5⟩, log := [] }
      1 0 0 0 0 []).2.2.log ∧
    (prepareCalibrationSequence (ALPwrapper.new 0 1024 768)
      { reply := fun n => if n = 1 then ⟨.error 1, 0⟩ else ⟨.ALP_OK, 5⟩, log := [] }
      1 0 0 0 0 []).2.2.calls.getLast? = some (.AlpSeqFree (-1) 5) := by
  decide

/-! ## Frame packer -/

theorem forLoop_zero {σ : Type} (body : Nat → σ → Option σ) (init : σ) :
    forLoop 0 body init = some init := rfl

theorem forLoop_succ {σ : Type} (n : Nat) (body : Nat → σ → Option σ) (init : σ) :
    forLoop (n + 1) body init = (forLoop n body init).bind (body n) := by
  simp [forLoop, List.range_succ, List.foldlM_append]

/-- Invariant rule for a counted loop: the loop returns, and the invariant holds
at the end. -/
theorem forLoop_invariant {σ : Type} (P : Nat → σ → Prop) (n : Nat)
    (body : Nat → σ → Option σ) (init : σ) (h0 : P 0 init)
    (hstep : ∀ i st, i < n → P i st → ∃ st', body i st = some st' ∧ P (i + 1) st') :
    ∃ st', forLoop n body init = some st' ∧ P n st' := by
  induction n with
  | zero => exact ⟨init, rfl, h0⟩
  | succ n ih =>
    obtain ⟨st, hst, hP⟩ := ih (fun i st hi => hstep i st (Nat.lt_succ_of_lt hi))
    obtain ⟨st', hst', hP'⟩ := hstep n st (Nat.lt_succ_self n) hP
    exact ⟨st', by rw [forLoop_succ, hst]; exact hst', hP'⟩

theorem packInput.pos_lt (stride height N f y x : Nat) (hf : f < N) (hy : y < height)
    (hx : x < stride) : packInput.pos stride height f y x < stride * height * N := by
  unfold packInput.pos
  have h1 : (y + 1) * stride ≤ height * stride := Nat.mul_le_mul_right _ hy
  have h2 : (f + 1) * (stride * height) ≤ N * (stride * height) := Nat.mul_le_mul_right _ hf
  have e1 : f * stride * height = f * (stride * height) := Nat.mul_assoc _ _ _
  have e2 : stride * height * N = N * (stride * height) := Nat.mul_comm _ _
  have e3 : height * stride = stride * height := Nat.mul_comm _ _
  rw [e1, e2]
  rw [Nat.add_mul, Nat.one_mul] at h1 h2
  omega

theorem packInput.pos_lt_of_done (len stride height F Y X f y x : Nat) (hlen : len ≤ stride)
    (hY : Y < height) (h : packInput.done len height F Y X f y x) :
    packInput.pos stride height f y x < packInput.pos stride height F Y X := by
  obtain ⟨hx, hy, hlex⟩ := h
  unfold packInput.pos
  have h1 : (y + 1) * stride ≤ height * stride := Nat.mul_le_mul_right _ hy
  have e3 : height * stride = stride * height := Nat.mul_comm _ _
  rw [Nat.add_mul, Nat.one_mul] at h1
  rcases hlex with hf | ⟨rfl, hy' | ⟨rfl, hx'⟩⟩
  · have h2 : (f + 1) * (stride * height) ≤ F * (stride * height) := Nat.mul_le_mul_right _ hf
    rw [Nat.add_mul, Nat.one_mul] at h2
    rw [Nat.mul_assoc f, Nat.mul_assoc F]
    omega
  · have h2 : (y + 1) * stride ≤ Y * stride := Nat.mul_le_mul_right _ hy'
    rw [Nat.add_mul, Nat.one_mul] at h2
    omega
  · omega

theorem packInput.read_lt (Input_width height N f y x k : Nat) (hf : f < N) (hy : y < height)
    (hx : x < Input_width / 8) (hk : k < 8) :
    Input_width * height * f + height * (x * 8 + k) + y < Input_width * height * N := by
  have hc : x * 8 + k + 1 ≤ Input_width := by omega
  have h1 : height * (x * 8 + k + 1) ≤ height * Input_width := Nat.mul_le_mul_left _ hc
  have h2 : Input_width * height * (f + 1) ≤ Input_width * height * N :=
    Nat.mul_le_mul_left _ hf
  have e : height * Input_width = Input_width * height := Nat.mul_comm _ _
  rw [Nat.mul_add, Nat.mul_one] at h1 h2
  omega

theorem packInput.idealByte_eq (Input : List Nat) (Input_width height N f y x : Nat)
    (hIn : Input_width * height * N ≤ Input.length) (hf : f < N) (hy : y < height)
    (hx : x < Input_width / 8) :
    (packInput.idealByte Input (Input_width * height * f) height x y).bind
        (fun v => some (v % 256)) =
      some (packInput.value Input Input_width height f y x) := by
  have hr : ∀ k, k < 8 →
      Input[Input_width * height * f + height * (x * 8 + k) + y]? =
        some (Input.getD (Input_width * height * f + height * (x * 8 + k) + y) 0) := by
    intro k hk
    have hlt := packInput.read_lt Input_width height N f y x k hf hy hx hk
    rw [List.getD_eq_getElem?_getD, List.getElem?_eq_getElem (by omega)]
    rfl
  simp only [packInput.idealByte, packInput.value, bind, pure, hr 0 (by omega), hr 1 (by omega),
    hr 2 (by omega), hr 3 (by omega), hr 4 (by omega), hr 5 (by omega), hr 6 (by omega),
    hr 7 (by omega), Option.some_bind]

theorem packInput.Inv_congr (Input b0 : List Nat) (Input_width stride height F Y X F' Y' X' : Nat)
    (b : List Nat)
    (h : ∀ f y x, packInput.done (Input_width / 8) height F Y X f y x ↔
      packInput.done (Input_width / 8) height F' Y' X' f y x)
    (hI : packInput.Inv Input b0 Input_width stride height F Y X b) :
    packInput.Inv Input b0 Input_width stride height F' Y' X' b := by
  obtain ⟨h1, h2, h3⟩ := hI
  exact ⟨h1, fun f y x hd => h2 f y x ((h f y x).mpr hd),
    fun j hj => h3 j (fun f y x hd => hj f y x ((h f y x).mp hd))⟩

/-- One iteration of the innermost loop of `packInput` succeeds and keeps the
invariant. -/
theorem packInput.Inv_step (Input b0 : List Nat) (Input_width stride height N F Y X : Nat)
    (b : List Nat) (hlen : Input_width / 8 ≤ stride)
    (hb0 : b0.length = stride * height * N)
    (hIn : Input_width * height * N ≤ Input.length)
    (hF : F < N) (hY : Y < height) (hX : X < Input_width / 8)
    (hI : packInput.Inv Input b0 Input_width stride height F Y X b) :
    ∃ b', (packInput.idealByte Input (Input_width * height * F) height X Y).bind
        (fun v => store b (F * stride * height + Y * stride + X) v) = some b' ∧
      packInput.Inv Input b0 Input_width stride height F Y (X + 1) b' := by
  obtain ⟨h1, h2, h3⟩ := hI
  have hpos : packInput.pos stride height F Y X < b.length := by
    rw [h1, hb0]
    exact packInput.pos_lt stride height N F Y X hF hY (by omega)
  have hbyte := packInput.idealByte_eq Input Input_width height N F Y X hIn hF hY hX
  cases hv : packInput.idealByte Input (Input_width * height * F) height X Y with
  | none => rw [hv] at hbyte; simp at hbyte
  | some v =>
    rw [hv, Option.some_bind] at hbyte
    have hval : v % 256 = packInput.value Input Input_width height F Y X := by
      simpa using hbyte
    refine ⟨b.set (packInput.pos stride height F Y X) (v % 256), ?_, ?_, ?_, ?_⟩
    · rw [Option.some_bind]
      unfold store
      exact if_pos hpos
    · simp [h1]
    · intro f y x hd
      by_cases hnew : f = F ∧ y = Y ∧ x = X
      · obtain ⟨rfl, rfl, rfl⟩ := hnew
        rw [List.getElem?_set, if_pos rfl, if_pos hpos, hval]
      · have hold : packInput.done (Input_width / 8) height F Y X f y x := by
          obtain ⟨hx, hy, hlex⟩ := hd
          refine ⟨hx, hy, ?_⟩
          rcases hlex with hf | ⟨hf, hy' | ⟨hy', hx'⟩⟩
          · exact Or.inl hf
          · exact Or.inr ⟨hf, Or.inl hy'⟩
          · refine Or.inr ⟨hf, Or.inr ⟨hy', ?_⟩⟩
            have : x ≠ X := fun e => hnew ⟨hf, hy', e⟩
            omega
        have hlt := packInput.pos_lt_of_done _ stride height F Y X f y x hlen hY hold
        rw [List.getElem?_set_ne (by omega)]
        exact h2 f y x hold
    · intro j hj
      have hne : packInput.pos stride height F Y X ≠ j := by
        intro e
        exact hj F Y X ⟨hX, hY, Or.inr ⟨rfl, Or.inr ⟨rfl, Nat.lt_succ_self X⟩⟩⟩ e.symm
      rw [List.getElem?_set_ne hne]
      apply h3 j
      intro f y x hd
      apply hj f y x
      obtain ⟨hx, hy, hlex⟩ := hd
      refine ⟨hx, hy, ?_⟩
      rcases hlex with hf | ⟨hf, hy' | ⟨hy', hx'⟩⟩
      · exact Or.inl hf
      · exact Or.inr ⟨hf, Or.inl hy'⟩
      · exact Or.inr ⟨hf, Or.inr ⟨hy', Nat.lt_succ_of_lt hx'⟩⟩

/-- The loop over the bytes of one row. -/
theorem packInput.Inv_row (Input b0 : List Nat) (Input_width stride height N F Y : Nat)
    (b : List Nat) (hlen : Input_width / 8 ≤ stride)
    (hb0 : b0.length = stride * height * N)
    (hIn : Input_width * height * N ≤ Input.length)
    (hF : F < N) (hY : Y < height)
    (hI : packInput.Inv Input b0 Input_width stride height F Y 0 b) :
    ∃ b', forLoop (Input_width / 8) (fun x packedInput =>
        (packInput.idealByte Input (Input_width * height * F) height x Y).bind fun v =>
          store packedInput (F * stride * height + Y * stride + x) v) b = some b' ∧
      packInput.Inv Input b0 Input_width stride height F (Y + 1) 0 b' := by
  obtain ⟨b', hb', hI'⟩ := forLoop_invariant
    (fun X st => packInput.Inv Input b0 Input_width stride height F Y X st) (Input_width / 8)
    (fun x packedInput =>
      (packInput.idealByte Input (Input_width * height * F) height x Y).bind fun v =>
        store packedInput (F * stride * height + Y * stride + x) v) b hI
    (fun X st hX hst =>
      packInput.Inv_step Input b0 Input_width stride height N F Y X st hlen hb0 hIn hF hY hX hst)
  refine ⟨b', hb', packInput.Inv_congr Input b0 Input_width stride height _ _ _ _ _ _ b' ?_ hI'⟩
  intro f y x
  unfold packInput.done
  constructor
  · rintro ⟨hx, hy, hlex⟩
    refine ⟨hx, hy, ?_⟩
    rcases hlex with hf | ⟨hf, hy' | ⟨hy', _⟩⟩
    · exact Or.inl hf
    · exact Or.inr ⟨hf, Or.inl (by omega)⟩
    · exact Or.inr ⟨hf, Or.inl (by omega)⟩
  · rintro ⟨hx, hy, hlex⟩
    refine ⟨hx, hy, ?_⟩
    rcases hlex with hf | ⟨hf, hy' | ⟨_, hx'⟩⟩
    · exact Or.inl hf
    · by_cases e : y = Y
      · exact Or.inr ⟨hf, Or.inr ⟨e, hx⟩⟩
      · exact Or.inr ⟨hf, Or.inl (by omega)⟩
    · omega

/-- The loop over the rows of one frame. -/
theorem packInput.Inv_frame (Input b0 : List Nat) (Input_width stride height N F : Nat)
    (b : List Nat) (hlen : Input_width / 8 ≤ stride)
    (hb0 : b0.length = stride * height * N)
    (hIn : Input_width * height * N ≤ Input.length)
    (hF : F < N)
    (hI : packInput.Inv Input b0 Input_width stride height F 0 0 b) :
    ∃ b', forLoop height (fun y packedInput =>
        forLoop (Input_width / 8) (fun x packedInput =>
          (packInput.idealByte Input (Input_width * height * F) height x y).bind fun v =>
            store packedInput (F * stride * height + y * stride + x) v) packedInput) b = some b' ∧
      packInput.Inv Input b0 Input_width stride height (F + 1) 0 0 b' := by
  obtain ⟨b', hb', hI'⟩ := forLoop_invariant
    (fun Y st => packInput.Inv Input b0 Input_width stride height F Y 0 st) height
    (fun y packedInput =>
      forLoop (Input_width / 8) (fun x packedInput =>
        (packInput.idealByte Input (Input_width * height * F) height x y).bind fun v =>
          store packedInput (F * stride * height + y * stride + x) v) packedInput) b hI
    (fun Y st hY hst =>
      packInput.Inv_row Input b0 Input_width stride height N F Y st hlen hb0 hIn hF hY hst)
  refine ⟨b', hb', packInput.Inv_congr Input b0 Input_width stride height _ _ _ _ _ _ b' ?_ hI'⟩
  intro f y x
  unfold packInput.done
  constructor
  · rintro ⟨hx, hy, hlex⟩
    refine ⟨hx, hy, ?_⟩
    rcases hlex with hf | ⟨hf, _⟩
    · exact Or.inl (by omega)
    · exact Or.inl (by omega)
  · rintro ⟨hx, hy, hlex⟩
    refine ⟨hx, hy, ?_⟩
    rcases hlex with hf | ⟨hf, hy' | ⟨_, hx'⟩⟩
    · by_cases e : f = F
      · exact Or.inr ⟨e, Or.inl hy⟩
      · exact Or.inl (by omega)
    · omega
    · omega

/-- The loop over the frames: it returns, and every byte `(f, y, x)` with
`x < Input_width / 8` holds its packed value, every other byte its initial one. -/
theorem packInput.Inv_all (Input b0 : List Nat) (Input_width stride height N : Nat)
    (hlen : Input_width / 8 ≤ stride)
    (hb0 : b0.length = stride * height * N)
    (hIn : Input_width * height * N ≤ Input.length) :
    ∃ b', forLoop N (fun frame packedInput =>
        forLoop height (fun y packedInput =>
          forLoop (Input_width / 8) (fun x packedInput =>
            (packInput.idealByte Input (Input_width * height * frame) height x y).bind fun v =>
              store packedInput (frame * stride * height + y * stride + x) v) packedInput)
          packedInput) b0 = some b' ∧
      packInput.Inv Input b0 Input_width stride height N 0 0 b' := by
  apply forLoop_invariant
    (fun F st => packInput.Inv Input b0 Input_width stride height F 0 0 st) N
  · refine ⟨rfl, ?_, fun j _ => rfl⟩
    intro f y x hd
    obtain ⟨_, _, hlex⟩ := hd
    omega
  · intro F st hF hst
    exact packInput.Inv_frame Input b0 Input_width stride height N F st hlen hb0 hIn hF hst

theorem packInput.zeroFilled_getElem? (uninit : Nat → Nat) (A M j : Nat) :
    (List.replicate A 0 ++ ((List.range M).map uninit).drop A)[j]? =
      if j < A then some 0 else if j < M then some (uninit j) else none := by
  by_cases h : j < A
  · rw [if_pos h, List.getElem?_append_left (by simpa using h),
      List.getElem?_replicate_of_lt h]
  · rw [if_neg h, List.getElem?_append_right (by simpa using h), List.getElem?_drop,
      List.getElem?_map]
    simp only [List.length_replicate]
    have e : A + (j - A) = j := by omega
    rw [e]
    by_cases h' : j < M
    · rw [if_pos h', List.getElem?_range h']; rfl
    · rw [if_neg h', List.getElem?_eq_none (by simpa using h')]; rfl

theorem forLoop_congr {σ : Type} (n : Nat) (f g : Nat → σ → Option σ) (init : σ)
    (h : ∀ i, i < n → ∀ st, f i st = g i st) : forLoop n f init = forLoop n g init := by
  induction n with
  | zero => rfl
  | succ n ih =>
    rw [forLoop_succ, forLoop_succ, ih (fun i hi => h i (Nat.lt_succ_of_lt hi))]
    congr 1
    funext st
    exact h n (Nat.lt_succ_self n) st

/-- A loop whose last iteration fails whatever the state fails. -/
theorem forLoop_last_none {σ : Type} (n : Nat) (body : Nat → σ → Option σ) (init : σ)
    (h : ∀ st, body n st = none) : forLoop (n + 1) body init = none := by
  rw [forLoop_succ]
  cases forLoop n body init with
  | none => rfl
  | some st => exact h st

theorem intMul_eq (a b : Nat) (h : a * b ≤ INT_MAX) : intMul a b = some (a * b) := if_pos h

theorem intAdd_eq (a b : Nat) (h : a + b ≤ INT_MAX) : intAdd a b = some (a + b) := if_pos h

theorem intMul_eq_none (a b : Nat) (h : INT_MAX < a * b) : intMul a b = none :=
  if_neg (Nat.not_le.2 h)

theorem packInput.pixel_eq (Input : List Nat) (off height x k y : Nat)
    (h : height * (x * 8 + k) ≤ INT_MAX) (hy : y < height) :
    packInput.pixel Input off height x k y = Input[off + height * (x * 8 + k) + y]? := by
  have hc : x * 8 + k ≤ INT_MAX :=
    le_trans (Nat.le_mul_of_pos_left _ (by omega)) h
  unfold packInput.pixel
  rw [intMul_eq x 8 (by omega), Option.some_bind, intAdd_eq _ _ hc, Option.some_bind,
    intMul_eq _ _ h, Option.some_bind]

/-- Without overflow in its index arithmetic `packInput.byte` is the byte read
with exact indices. -/
theorem packInput.byte_eq_idealByte (Input : List Nat) (off height x y : Nat)
    (h : height * (x * 8 + 7) ≤ INT_MAX) (hy : y < height) :
    packInput.byte Input off height x y = packInput.idealByte Input off height x y := by
  have hk : ∀ k, k ≤ 7 → height * (x * 8 + k) ≤ INT_MAX := fun k hk =>
    le_trans (Nat.mul_le_mul_left _ (by omega)) h
  unfold packInput.byte packInput.idealByte
  rw [packInput.pixel_eq Input off height x 0 y (hk 0 (by omega)) hy,
    packInput.pixel_eq Input off height x 1 y (hk 1 (by omega)) hy,
    packInput.pixel_eq Input off height x 2 y (hk 2 (by omega)) hy,
    packInput.pixel_eq Input off height x 3 y (hk 3 (by omega)) hy,
    packInput.pixel_eq Input off height x 4 y (hk 4 (by omega)) hy,
    packInput.pixel_eq Input off height x 5 y (hk 5 (by omega)) hy,
    packInput.pixel_eq Input off height x 6 y (hk 6 (by omega)) hy,
    packInput.pixel_eq Input off height x 7 y (hk 7 (by omega)) hy]

/-- The frame loop of `packInput` when no `int` operation overflows: it is the
loop with the offsets computed exactly. -/
theorem packInput.loop_eq (Input b0 : List Nat) (W H stride height N : Nat)
    (hframe : W * H ≤ INT_MAX) (hin : W * H * (N - 1) ≤ INT_MAX)
    (hfs : (N - 1) * stride ≤ INT_MAX) (hout : stride * height * N ≤ INT_MAX)
    (hidx : height * W ≤ INT_MAX) :
    forLoop N (fun frame packedInput =>
        ((intMul frame stride).bind fun fs => intMul fs height).bind
          fun packedFrameOffset =>
            ((intMul W H).bind fun wh => intMul wh frame).bind
              fun InputFrameOffset =>
                forLoop height (fun y packedInput =>
                  forLoop (W / 8) (fun x packedInput =>
                    (packInput.byte Input InputFrameOffset height x y).bind fun v =>
                      (intMul y stride).bind fun row =>
                        store packedInput (packedFrameOffset + row + x) v) packedInput)
                  packedInput) b0 =
      forLoop N (fun frame packedInput =>
        forLoop height (fun y packedInput =>
          forLoop (W / 8) (fun x packedInput =>
            (packInput.idealByte Input (W * H * frame) height x y).bind fun v =>
              store packedInput (frame * stride * height + y * stride + x) v) packedInput)
          packedInput) b0 := by
  apply forLoop_congr
  intro frame hfr st
  have h1 : frame * stride ≤ INT_MAX :=
    le_trans (Nat.mul_le_mul_right _ (by omega)) hfs
  have h2 : frame * stride * height ≤ INT_MAX := by
    refine le_trans ?_ hout
    calc frame * stride * height = stride * height * frame := by ring
      _ ≤ stride * height * N := Nat.mul_le_mul_left _ (by omega)
  have h3 : W * H * frame ≤ INT_MAX :=
    le_trans (Nat.mul_le_mul_left _ (by omega)) hin
  have h4 : stride * height ≤ INT_MAX :=
    le_trans (Nat.le_mul_of_pos_right _ (by omega)) hout
  rw [intMul_eq _ _ h1, Option.some_bind, intMul_eq _ _ h2, Option.some_bind,
    intMul_eq _ _ hframe, Option.some_bind, intMul_eq _ _ h3, Option.some_bind]
  apply forLoop_congr
  intro y hy st
  apply forLoop_congr
  intro x hx st
  have h5 : height * (x * 8 + 7) ≤ INT_MAX :=
    le_trans (Nat.mul_le_mul_left _ (by omega)) hidx
  have h6 : y * stride ≤ INT_MAX := by
    refine le_trans ?_ h4
    calc y * stride ≤ height * stride := Nat.mul_le_mul_right _ (by omega)
      _ = stride * height := by ring
  rw [packInput.byte_eq_idealByte Input _ height x y h5 hy]
  congr 1
  funext v
  rw [intMul_eq _ _ h6, Option.some_bind]

/-- On a panel of positive height `frame * stride` is below the size of the output
buffer. -/
theorem packInput.row_fits (stride height N : Nat) (hh : 0 < height)
    (hfit : stride * height * N ≤ INT_MAX) : (N - 1) * stride ≤ INT_MAX := by
  refine le_trans ?_ hfit
  calc (N - 1) * stride ≤ N * (stride * height) :=
      Nat.mul_le_mul (by omega) (Nat.le_mul_of_pos_right _ hh)
    _ = stride * height * N := by ring

/-- What `packInput` returns on an unpacked input (width 1024 or 768) that fits
the panel, when the `int` products of the code stay within `INT_MAX`: it returns
a buffer of `stride * height * numFrames` bytes in which byte
`x < Input_width / 8` of row `y` of frame `f` is the packed value, and every
other byte is what the zero fill of the first frame or `new` left there. -/
theorem packInput_unpacked (s : ALPwrapper) (Input : List Nat) (W N : Nat)
    (uninit : Nat → Nat) (hW : W = 1024 ∨ W = 768) (hlen : W / 8 ≤ s.width / 8)
    (hN : 1 ≤ N) (hIn : W * s.height * N ≤ Input.length)
    (hframe : W * s.height ≤ INT_MAX) (hin : W * s.height * (N - 1) ≤ INT_MAX)
    (hfs : (N - 1) * (s.width / 8) ≤ INT_MAX)
    (hfit : s.width / 8 * s.height * N ≤ INT_MAX) :
    ∃ out, packInput s Input W s.height N uninit = some out ∧
      out.length = s.width / 8 * s.height * N ∧
      (∀ f y x, f < N → y < s.height → x < W / 8 →
        out[f * (s.width / 8) * s.height + y * (s.width / 8) + x]? =
          some (packInput.value Input W s.height f y x)) ∧
      (∀ j, (∀ f y x, f < N → y < s.height → x < W / 8 →
          j ≠ f * (s.width / 8) * s.height + y * (s.width / 8) + x) →
        out[j]? = if j < s.width / 8 * s.height then some 0
          else if j < s.width / 8 * s.height * N then some (uninit j) else none) := by
  have hA : s.width / 8 * s.height ≤ s.width / 8 * s.height * N :=
    Nat.le_mul_of_pos_right _ hN
  have hb0 : (List.replicate (s.width / 8 * s.height) 0 ++
      ((List.range (s.width / 8 * s.height * N)).map uninit).drop (s.width / 8 * s.height)).length
        = s.width / 8 * s.height * N := by
    simp only [List.length_append, List.length_replicate, List.length_drop, List.length_map,
      List.length_range]
    omega
  obtain ⟨out, hout, h1, h2, h3⟩ := packInput.Inv_all Input _ W (s.width / 8) s.height N hlen
    hb0 hIn
  have hidx : s.height * W ≤ INT_MAX := by rw [Nat.mul_comm]; exact hframe
  refine ⟨out, ?_, ?_, ?_, ?_⟩
  · unfold packInput memset
    simp only []
    rw [intMul_eq _ _ (le_trans hA hfit), Option.some_bind, intMul_eq _ _ hfit,
      Option.some_bind, Option.some_bind]
    simp only [List.length_map, List.length_range]
    rw [if_pos hA, Option.some_bind, if_pos hW,
      packInput.loop_eq Input _ W s.height (s.width / 8) s.height N hframe hin hfs hfit hidx]
    exact hout
  · rw [h1, hb0]
  · intro f y x hf hy hx
    exact h2 f y x ⟨hx, hy, Or.inl hf⟩
  · intro j hj
    rw [h3 j, packInput.zeroFilled_getElem? uninit _ _ j]
    intro f y x hd
    obtain ⟨hx, hy, hlex⟩ := hd
    have hf : f < N := by omega
    exact hj f y x hf hy hx

/-- An unpacked input of width 1024 or 768 whose last frame starts beyond
`INT_MAX`: the product `Input_width * Input_height * frame` overflows at the last
frame, and `packInput` has no result. -/
theorem packInput_input_offset_overflow (s : ALPwrapper) (Input : List Nat) (W H n : Nat)
    (uninit : Nat → Nat) (hW : W = 1024 ∨ W = 768) (hover : INT_MAX < W * H * n) :
    packInput s Input W H (n + 1) uninit = none := by
  have hlast : ∀ st : List Nat,
      (((intMul n (s.width / 8)).bind fun fs => intMul fs s.height).bind
        fun packedFrameOffset =>
          ((intMul W H).bind fun wh => intMul wh n).bind
            fun InputFrameOffset =>
              forLoop s.height (fun y packedInput =>
                forLoop (W / 8) (fun x packedInput =>
                  (packInput.byte Input InputFrameOffset s.height x y).bind fun v =>
                    (intMul y (s.width / 8)).bind fun row =>
                      store packedInput (packedFrameOffset + row + x) v) packedInput)
                st) = none := by
    intro st
    have hin : ((intMul W H).bind fun wh => intMul wh n) = none := by
      cases hwh : intMul W H with
      | none => rfl
      | some wh =>
        unfold intMul at hwh
        split at hwh
        · cases hwh
          exact intMul_eq_none _ _ hover
        · cases hwh
    rw [hin]
    cases ((intMul n (s.width / 8)).bind fun fs => intMul fs s.height) <;> rfl
  unfold packInput
  simp only [if_pos hW]
  cases ((intMul (s.width / 8) s.height).bind fun sh => intMul sh (n + 1)) with
  | none => rfl
  | some m =>
    rw [Option.some_bind]
    cases ((intMul (s.width / 8) s.height).bind fun k =>
        memset ((List.range m).map uninit) 0 k) with
    | none => rfl
    | some b =>
      rw [Option.some_bind]
      exact forLoop_last_none n _ b hlast

/-- For bits, OR-ing the weighted values is adding them. -/
theorem packInput.or_eq_sum (a0 a1 a2 a3 a4 a5 a6 a7 : Nat) (h0 : a0 ≤ 1) (h1 : a1 ≤ 1)
    (h2 : a2 ≤ 1) (h3 : a3 ≤ 1) (h4 : a4 ≤ 1) (h5 : a5 ≤ 1) (h6 : a6 ≤ 1) (h7 : a7 ≤ 1) :
    (a0 * 128 ||| a1 * 64 ||| a2 * 32 ||| a3 * 16 ||| a4 * 8 ||| a5 * 4 ||| a6 * 2 ||| a7 * 1)
        % 256 =
      a0 * 128 + a1 * 64 + a2 * 32 + a3 * 16 + a4 * 8 + a5 * 4 + a6 * 2 + a7 * 1 := by
  interval_cases a0 <;> interval_cases a1 <;> interval_cases a2 <;> interval_cases a3 <;>
    interval_cases a4 <;> interval_cases a5 <;> interval_cases a6 <;> interval_cases a7 <;> rfl

theorem packInput.getD_le_one (Input : List Nat) (hbit : ∀ v ∈ Input, v = 0 ∨ v = 1) (i : Nat) :
    Input.getD i 0 ≤ 1 := by
  rw [List.getD_eq_getElem?_getD]
  cases h : Input[i]? with
  | none => simp
  | some v =>
    rcases hbit v (List.getElem?_mem h) with rfl | rfl <;> simp

theorem packInput.getD_const (Input : List Nat) (c : Nat) (hc : ∀ v ∈ Input, v = c) (i : Nat)
    (hi : i < Input.length) : Input.getD i 0 = c := by
  rw [List.getD_eq_getElem?_getD, List.getElem?_eq_getElem hi]
  exact hc _ (List.getElem_mem hi)

/-- C1 (amended). Bit order of `packInput`. For an unpacked input of width 1024 or
768 that fits the panel (`Input_width ≤ width`, as on every panel `init`
resolves), with `Input_height` the panel height, an input buffer holding the
`numFrames` frames, every input byte 0 or 1, and `numFrames` small enough for the
`int` products of the code (`Input_width * Input_height`, the offset
`Input_width * Input_height * (numFrames - 1)` of the last input frame and the
size `stride * height * numFrames` of the output are at most `INT_MAX`):
`packInput` returns a buffer in which, for every frame `f < numFrames`, row
`y < height` and byte index `x < Input_width / 8`, the byte at offset
`f * stride * height + y * stride + x` is the sum over `k = 0..7` of
`p(f, y, 8x+k) * 2^(7-k)`, where `p(f, y, c)` is the input byte at
`f * Input_width * Input_height + height * c + y`. In particular eight pixels
`1,0,0,0,0,0,0,0` pack to 128. -/
theorem packInput_bit_order (s : ALPwrapper) (Input : List Nat) (Input_width numFrames : Nat)
    (uninit : Nat → Nat) (hW : Input_width = 1024 ∨ Input_width = 768)
    (hpanel : Input_width ≤ s.width)
    (hIn : Input_width * s.height * numFrames ≤ Input.length)
    (hbit : ∀ v ∈ Input, v = 0 ∨ v = 1)
    (hframe : Input_width * s.height ≤ INT_MAX)
    (hlast : Input_width * s.height * (numFrames - 1) ≤ INT_MAX)
    (hsize : s.width / 8 * s.height * numFrames ≤ INT_MAX)
    (f y x : Nat) (hf : f < numFrames) (hy : y < s.height) (hx : x < Input_width / 8) :
    ∃ out, packInput s Input Input_width s.height numFrames uninit = some out ∧
      out[f * (s.width / 8) * s.height + y * (s.width / 8) + x]? =
        some (∑ k in Finset.range 8,
          Input.getD (f * Input_width * s.height + s.height * (8 * x + k) + y) 0 * 2 ^ (7 - k)) ∧
      (Input.getD (f * Input_width * s.height + s.height * (8 * x + 0) + y) 0 = 1 →
        (∀ k, 1 ≤ k → k < 8 →
          Input.getD (f * Input_width * s.height + s.height * (8 * x + k) + y) 0 = 0) →
        out[f * (s.width / 8) * s.height + y * (s.width / 8) + x]? = some 128) := by
  obtain ⟨out, hout, -, hval, -⟩ := packInput_unpacked s Input Input_width numFrames uninit hW
    (Nat.div_le_div_right hpanel) (by omega) hIn hframe hlast
    (packInput.row_fits _ _ _ (by omega) hsize) hsize
  have hv := hval f y x hf hy hx
  have e : ∀ k, Input_width * s.height * f + s.height * (x * 8 + k) + y =
      f * Input_width * s.height + s.height * (8 * x + k) + y := by
    intro k; ring
  have hsum : packInput.value Input Input_width s.height f y x =
      ∑ k in Finset.range 8,
        Input.getD (f * Input_width * s.height + s.height * (8 * x + k) + y) 0 * 2 ^ (7 - k) := by
    unfold packInput.value
    rw [packInput.or_eq_sum _ _ _ _ _ _ _ _ (packInput.getD_le_one Input hbit _)
      (packInput.getD_le_one Input hbit _) (packInput.getD_le_one Input hbit _)
      (packInput.getD_le_one Input hbit _) (packInput.getD_le_one Input hbit _)
      (packInput.getD_le_one Input hbit _) (packInput.getD_le_one Input hbit _)
      (packInput.getD_le_one Input hbit _)]
    simp only [e, Finset.sum_range_succ, Finset.sum_range_zero]
    norm_num
  rw [hsum] at hv
  refine ⟨out, hout, hv, ?_⟩
  intro h0 hk
  rw [hv]
  simp only [Finset.sum_range_succ, Finset.sum_range_zero, h0, hk 1 (by omega) (by omega),
    hk 2 (by omega) (by omega), hk 3 (by omega) (by omega), hk 4 (by omega) (by omega),
    hk 5 (by omega) (by omega), hk 6 (by omega) (by omega), hk 7 (by omega) (by omega)]
  norm_num

/-- C3 (amended). `packInput` reads an unpacked input frame column by column
(`Input_width` columns of `height` bytes each). For an input of width 1024 or 768
that fits the panel, with `Input_height` the panel height, an input buffer
holding the `numFrames` frames, input bytes of any value, and `numFrames` small
enough for the `int` products of the code (`W * H`, `W * H * (numFrames - 1)` and
`stride * height * numFrames` are at most `INT_MAX`): the output byte `(f, y, x)`
is the OR, reduced modulo 256, of the eight input bytes at offsets
`f * W * H + H * (8x + k) + y`, `k = 0..7`, weighted 128, 64, ..., 1. These
offsets are `H` apart, not consecutive. -/
theorem packInput_reads_column_major (s : ALPwrapper) (Input : List Nat)
    (Input_width numFrames : Nat) (uninit : Nat → Nat)
    (hW : Input_width = 1024 ∨ Input_width = 768) (hpanel : Input_width ≤ s.width)
    (hIn : Input_width * s.height * numFrames ≤ Input.length)
    (hframe : Input_width * s.height ≤ INT_MAX)
    (hlast : Input_width * s.height * (numFrames - 1) ≤ INT_MAX)
    (hsize : s.width / 8 * s.height * numFrames ≤ INT_MAX)
    (f y x : Nat) (hf : f < numFrames) (hy : y < s.height) (hx : x < Input_width / 8) :
    ∃ out, packInput s Input Input_width s.height numFrames uninit = some out ∧
      out[f * (s.width / 8) * s.height + y * (s.width / 8) + x]? =
        some ((Input.getD (f * Input_width * s.height + s.height * (8 * x + 0) + y) 0 * 128 |||
          Input.getD (f * Input_width * s.height + s.height * (8 * x + 1) + y) 0 * 64 |||
          Input.getD (f * Input_width * s.height + s.height * (8 * x + 2) + y) 0 * 32 |||
          Input.getD (f * Input_width * s.height + s.height * (8 * x + 3) + y) 0 * 16 |||
          Input.getD (f * Input_width * s.height + s.height * (8 * x + 4) + y) 0 * 8 |||
          Input.getD (f * Input_width * s.height + s.height * (8 * x + 5) + y) 0 * 4 |||
          Input.getD (f * Input_width * s.height + s.height * (8 * x + 6) + y) 0 * 2 |||
          Input.getD (f * Input_width * s.height + s.height * (8 * x + 7) + y) 0 * 1) % 256) := by
  obtain ⟨out, hout, -, hval, -⟩ := packInput_unpacked s Input Input_width numFrames uninit hW
    (Nat.div_le_div_right hpanel) (by omega) hIn hframe hlast
    (packInput.row_fits _ _ _ (by omega) hsize) hsize
  have hv := hval f y x hf hy hx
  have e : ∀ k, Input_width * s.height * f + s.height * (x * 8 + k) + y =
      f * Input_width * s.height + s.height * (8 * x + k) + y := by
    intro k; ring
  refine ⟨out, hout, ?_⟩
  rw [hv]
  simp only [packInput.value, e]

/-- `packInput` on the 1024 x 768 panel, byte by byte, for a frame count whose
last input frame starts within `INT_MAX`: a byte in one of the first
`Input_width / 8` columns holds its packed value, and a byte of frame 0 outside
these columns is zero. -/
theorem packInput_xga (s : ALPwrapper) (Input : List Nat) (Input_width numFrames : Nat)
    (uninit : Nat → Nat) (hw : s.width = 1024) (hh : s.height = 768)
    (hW : Input_width = 1024 ∨ Input_width = 768) (hN : 1 ≤ numFrames)
    (hIn : Input_width * 768 * numFrames ≤ Input.length)
    (hlast : Input_width * 768 * (numFrames - 1) ≤ INT_MAX) :
    ∃ out, packInput s Input Input_width 768 numFrames uninit = some out ∧
      out.length = 128 * 768 * numFrames ∧
      (∀ j, j < 128 * 768 * numFrames → j % 128 < Input_width / 8 →
        out[j]? = some (packInput.value Input Input_width 768 (j / 98304) (j % 98304 / 128)
          (j % 128))) ∧
      (∀ j, j < 128 * 768 → Input_width / 8 ≤ j % 128 → out[j]? = some 0) := by
  have hlen : Input_width / 8 ≤ s.width / 8 := by
    rw [hw]; rcases hW with rfl | rfl <;> norm_num
  have hIn' : Input_width * s.height * numFrames ≤ Input.length := by rw [hh]; exact hIn
  have hframe : Input_width * s.height ≤ INT_MAX := by
    rw [hh]; unfold INT_MAX; rcases hW with rfl | rfl <;> norm_num
  have hlast' : Input_width * s.height * (numFrames - 1) ≤ INT_MAX := by rw [hh]; exact hlast
  have hfit : s.width / 8 * s.height * numFrames ≤ INT_MAX := by
    rw [hw, hh]
    unfold INT_MAX at hlast ⊢
    rcases hW with rfl | rfl <;> omega
  obtain ⟨out, hout, hsize, hval, hrest⟩ :=
    packInput_unpacked s Input Input_width numFrames uninit hW hlen hN hIn' hframe
      hlast' (packInput.row_fits _ _ _ (by omega) hfit) hfit
  rw [hh] at hout
  rw [hw, hh] at hsize hval hrest
  norm_num at hsize hval hrest
  refine ⟨out, hout, by rw [hsize], ?_, ?_⟩
  · intro j hj hx
    have h := hval (j / 98304) (j % 98304 / 128) (j % 128) (by omega) (by omega) hx
    have e : j / 98304 * 128 * 768 + j % 98304 / 128 * 128 + j % 128 = j := by omega
    rw [e] at h
    exact h
  · intro j hj hx
    have h := hrest j (by
      intro f y x hf hy hx' e
      omega)
    rw [h, if_pos (by omega)]

/-- C2 (amended). On the 1024 x 768 panel, for input width 1024 or 768 and a
frame count `numFrames ≥ 1` whose last input frame starts within `INT_MAX`
(`Input_width * 768 * (numFrames - 1) ≤ INT_MAX`, that is `numFrames ≤ 2731` for
width 1024 and `numFrames ≤ 3641` for width 768), `packInput` returns a buffer of
`128 * 768 * numFrames` bytes. For an all-zero input every byte in the first `Input_width / 8` columns of every
row of every frame is 0x00, for an all-one input every such byte is 0xFF. The
bytes of frame 0 outside these columns (none for width 1024, columns 96..127 for
width 768) are the zero fill, 0x00, whatever the input. For width 1024 the whole
buffer is all 0x00, respectively all 0xFF. -/
theorem packInput_uniform (s : ALPwrapper) (Input : List Nat) (Input_width numFrames : Nat)
    (uninit : Nat → Nat) (hw : s.width = 1024) (hh : s.height = 768)
    (hW : Input_width = 1024 ∨ Input_width = 768) (hN : 1 ≤ numFrames)
    (hIn : Input_width * 768 * numFrames ≤ Input.length)
    (hlast : Input_width * 768 * (numFrames - 1) ≤ INT_MAX) :
    ∃ out, packInput s Input Input_width 768 numFrames uninit = some out ∧
      out.length = 128 * 768 * numFrames ∧
      ((∀ v ∈ Input, v = 0) →
        ∀ j, j < 128 * 768 * numFrames → j % 128 < Input_width / 8 → out[j]? = some 0) ∧
      ((∀ v ∈ Input, v = 1) →
        ∀ j, j < 128 * 768 * numFrames → j % 128 < Input_width / 8 → out[j]? = some 255) ∧
      (∀ j, j < 128 * 768 → Input_width / 8 ≤ j % 128 → out[j]? = some 0) ∧
      (Input_width = 1024 →
        ((∀ v ∈ Input, v = 0) → out = List.replicate (128 * 768 * numFrames) 0) ∧
        ((∀ v ∈ Input, v = 1) → out = List.replicate (128 * 768 * numFrames) 255)) := by
  obtain ⟨out, hout, hsize, hdec, hpad⟩ :=
    packInput_xga s Input Input_width numFrames uninit hw hh hW hN hIn hlast
  have hzero : (∀ v ∈ Input, v = 0) →
      ∀ j, j < 128 * 768 * numFrames → j % 128 < Input_width / 8 → out[j]? = some 0 := by
    intro hall j hj hx
    rw [hdec j hj hx]
    have hg : ∀ i, Input.getD i 0 = 0 := by
      intro i
      rw [List.getD_eq_getElem?_getD]
      cases h : Input[i]? with
      | none => rfl
      | some v => simpa using hall v (List.getElem?_mem h)
    simp only [packInput.value, hg]
    rfl
  have hone : (∀ v ∈ Input, v = 1) →
      ∀ j, j < 128 * 768 * numFrames → j % 128 < Input_width / 8 → out[j]? = some 255 := by
    intro hall j hj hx
    rw [hdec j hj hx]
    have hg : ∀ k, k < 8 → Input.getD (Input_width * 768 * (j / 98304) +
        768 * (j % 128 * 8 + k) + j % 98304 / 128) 0 = 1 := by
      intro k hk
      have hlt := packInput.read_lt Input_width 768 numFrames (j / 98304) (j % 98304 / 128)
        (j % 128) k (by omega) (by omega) hx hk
      exact packInput.getD_const Input 1 hall _ (by omega)
    unfold packInput.value
    rw [hg 0 (by omega), hg 1 (by omega), hg 2 (by omega), hg 3 (by omega), hg 4 (by omega),
      hg 5 (by omega), hg 6 (by omega), hg 7 (by omega)]
    rfl
  refine ⟨out, hout, hsize, hzero, hone, hpad, ?_⟩
  intro h1024
  subst h1024
  constructor
  · intro hall
    apply List.ext_getElem?
    intro j
    by_cases hj : j < 128 * 768 * numFrames
    · rw [hzero hall j hj (by omega), List.getElem?_replicate_of_lt hj]
    · rw [List.getElem?_eq_none (by omega),
        List.getElem?_eq_none (by rw [List.length_replicate]; omega)]
  · intro hall
    apply List.ext_getElem?
    intro j
    by_cases hj : j < 128 * 768 * numFrames
    · rw [hone hall j hj (by omega), List.getElem?_replicate_of_lt hj]
    · rw [List.getElem?_eq_none (by omega),
        List.getElem?_eq_none (by rw [List.length_replicate]; omega)]

/-- C2, witness: one all-one frame of width 1024 packs to 98304 bytes 0xFF. -/
theorem packInput_uniform_witness :
    ∃ out, packInput xgaSession
        (List.replicate (1024 * 768) 1) 1024 768 1 (fun _ => 0) = some out ∧
      out = List.replicate (128 * 768 * 1) 255 := by
  obtain ⟨out, h1, -, -, -, -, h2⟩ :=
    packInput_uniform xgaSession
      (List.replicate (1024 * 768) 1) 1024 1 (fun _ => 0) rfl rfl (Or.inl rfl) (le_refl 1)
      (by rw [List.length_replicate]) (by decide)
  exact ⟨out, h1, (h2 rfl).2 (fun v hv => List.eq_of_mem_replicate hv)⟩

/-- C2, counterexample. One all-one frame of width 768 on the 1024 x 768 panel:
byte 96 of the returned buffer (row 0, first byte past the 96 packed ones) is
0x00, not 0xFF. And 2732 all-one frames of width 1024: the offset of frame 2731,
`1024 * 768 * 2731`, is above `INT_MAX`, the `int` product overflows and
`packInput` returns no buffer. -/
theorem packInput_all_one_not_all_FF :
    (packInput xgaSession
        (List.replicate (768 * 768) 1) 768 768 1 (fun _ => 0)).bind (fun out => out[96]?) =
      some 0 ∧
    packInput xgaSession (List.replicate (1024 * 768 * 2732) 1) 1024 768 2732 (fun _ => 0) =
      none := by
  constructor
  · obtain ⟨out, h1, -, -, h2⟩ :=
      packInput_xga xgaSession
        (List.replicate (768 * 768) 1) 768 1 (fun _ => 0) rfl rfl (Or.inr rfl) (le_refl 1)
        (by rw [List.length_replicate]) (by decide)
    rw [h1, Option.some_bind]
    exact h2 96 (by norm_num) (by norm_num)
  · exact packInput_input_offset_overflow xgaSession _ 1024 768 2731 _ (Or.inl rfl) (by decide)

theorem packInput.getD_set_replicate (n i j : Nat) (hi : i < n) :
    ((List.replicate n 0).set i 1).getD j 0 = if j = i then 1 else 0 := by
  rw [List.getD_eq_getElem?_getD, List.getElem?_set]
  by_cases h : i = j
  · subst h
    rw [if_pos rfl, if_pos rfl, if_pos (by rw [List.length_replicate]; exact hi)]
    rfl
  · rw [if_neg h, if_neg (fun e => h e.symm), List.getElem?_replicate]
    split <;> rfl

theorem packInput.mem_set_replicate (n i v : Nat) (h : v ∈ (List.replicate n 0).set i 1) :
    v = 0 ∨ v = 1 := by
  rcases List.mem_or_eq_of_mem_set h with h | h
  · exact Or.inl (List.eq_of_mem_replicate h)
  · exact Or.inr h

/-- C1, witness: a 1024 x 768 frame whose only set pixel is row 0, column 0 packs
to 128 in its first byte. -/
theorem packInput_bit_order_witness :
    ∃ out, packInput xgaSession
        ((List.replicate (1024 * 768) 0).set 0 1) 1024 768 1 (fun _ => 0) = some out ∧
      out[0]? = some 128 := by
  obtain ⟨out, h1, -, h3⟩ :=
    packInput_bit_order xgaSession
      ((List.replicate (1024 * 768) 0).set 0 1) 1024 1 (fun _ => 0) (Or.inl rfl) (le_refl 1024)
      (by rw [List.length_set, List.length_replicate]; decide)
      (fun v hv => packInput.mem_set_replicate _ _ v hv) (by decide) (by decide) (by decide)
      0 0 0 (by decide) (by decide) (by decide)
  have e := fun j => packInput.getD_set_replicate (1024 * 768) 0 j (by decide)
  have hw : xgaSession.width = 1024 := rfl
  have hh : xgaSession.height = 768 := rfl
  simp only [e, hw, hh] at h3
  norm_num at h3
  exact ⟨out, h1, h3 (fun k hk1 _ => by omega)⟩

/-- C1, counterexample. 2732 all-zero frames of width 1024 on the 1024 x 768
panel: the input has the size and content the claim asks for, but the offset of
frame 2731, `1024 * 768 * 2731 = 2147745792`, is above `INT_MAX`; the `int`
product overflows and `packInput` returns no buffer. -/
theorem packInput_bit_order_overflow :
    packInput xgaSession (List.replicate (1024 * 768 * 2732) 0) 1024 768 2732 (fun _ => 0) =
      none ∧
    INT_MAX < 1024 * 768 * 2731 :=
  ⟨packInput_input_offset_overflow xgaSession _ 1024 768 2731 _ (Or.inl rfl) (by decide),
    by decide⟩

/-- C3, witness: the input byte at offset 1 is row 1 of column 0, and lands in
the top bit of the first byte of output row 1 (offset 128). -/
theorem packInput_reads_column_major_witness :
    ∃ out, packInput xgaSession
        ((List.replicate (1024 * 768) 0).set 1 1) 1024 768 1 (fun _ => 0) = some out ∧
      out[128]? = some 128 := by
  obtain ⟨out, h1, h2⟩ :=
    packInput_reads_column_major xgaSession
      ((List.replicate (1024 * 768) 0).set 1 1) 1024 1 (fun _ => 0) (Or.inl rfl)
      (le_refl 1024) (by rw [List.length_set, List.length_replicate]; decide)
      (by decide) (by decide) (by decide) 0 1 0 (by decide) (by decide) (by decide)
  refine ⟨out, h1, ?_⟩
  have e := fun j => packInput.getD_set_replicate (1024 * 768) 1 j (by decide)
  have hw : xgaSession.width = 1024 := rfl
  have hh : xgaSession.height = 768 := rfl
  simp only [e, hw, hh] at h2
  norm_num at h2
  exact h2

/-- C3, counterexample. A 1024 x 768 frame whose only non-zero byte is at offset
1. Read row-major, output byte 0 would combine the input bytes at offsets 0..7
and be 64; `packInput` returns 0 there. And 3000 frames of width 1024: the
offsets of frames 2731 to 2999, `1024 * 768 * 2731` and above, exceed `INT_MAX`,
the `int` product overflows and `packInput` returns no buffer. -/
theorem packInput_not_row_major :
    (packInput xgaSession
        ((List.replicate (1024 * 768) 0).set 1 1) 1024 768 1 (fun _ => 0)).bind
        (fun out => out[0]?) = some 0 ∧
    (((List.replicate (1024 * 768) 0).set 1 1).getD (0 * 1024 * 768 + 0 * 1024 + 8 * 0 + 0) 0 * 128 |||
      ((List.replicate (1024 * 768) 0).set 1 1).getD (0 * 1024 * 768 + 0 * 1024 + 8 * 0 + 1) 0 * 64 |||
      ((List.replicate (1024 * 768) 0).set 1 1).getD (0 * 1024 * 768 + 0 * 1024 + 8 * 0 + 2) 0 * 32 |||
      ((List.replicate (1024 * 768) 0).set 1 1).getD (0 * 1024 * 768 + 0 * 1024 + 8 * 0 + 3) 0 * 16 |||
      ((List.replicate (1024 * 768) 0).set 1 1).getD (0 * 1024 * 768 + 0 * 1024 + 8 * 0 + 4) 0 * 8 |||
      ((List.replicate (1024 * 768) 0).set 1 1).getD (0 * 1024 * 768 + 0 * 1024 + 8 * 0 + 5) 0 * 4 |||
      ((List.replicate (1024 * 768) 0).set 1 1).getD (0 * 1024 * 768 + 0 * 1024 + 8 * 0 + 6) 0 * 2 |||
      ((List.replicate (1024 * 768) 0).set 1 1).getD (0 * 1024 * 768 + 0 * 1024 + 8 * 0 + 7) 0 * 1)
        % 256 = 64 ∧
    packInput xgaSession ((List.replicate (1024 * 768 * 3000) 0).set 1 1) 1024 768 3000
      (fun _ => 0) = none := by
  refine ⟨?_, ?_, packInput_input_offset_overflow xgaSession _ 1024 768 2999 _ (Or.inl rfl)
    (by decide)⟩
  · obtain ⟨out, h1, -, h2, -⟩ :=
      packInput_xga xgaSession
        ((List.replicate (1024 * 768) 0).set 1 1) 1024 1 (fun _ => 0) rfl rfl (Or.inl rfl)
        (le_refl 1) (by rw [List.length_set, List.length_replicate]) (by decide)
    have e := fun j => packInput.getD_set_replicate (1024 * 768) 1 j (by decide)
    rw [h1, Option.some_bind, h2 0 (by decide) (by decide)]
    simp only [packInput.value, e]
    rfl
  · have e := fun j => packInput.getD_set_replicate (1024 * 768) 1 j (by decide)
    simp only [e]
    rfl

/-! ## Playback: start, stop and the continuous flag -/

/-- Result and session of `runUploadedSequence` on a pooled id whose timing push
succeeds: the result is the status of the start call, the only field of the
session that may change is `playingCont`, which becomes `continuous`. -/
theorem runUploadedSequence_started (s : ALPwrapper) (d : Driver) (id : Int) (f : Double)
    (c : Bool) (n : Int) (hid : id ∈ s.allocatedSequences)
    (ht : (d.reply (d.log.length + (if c then 0 else 1))).status = .ALP_OK) :
    (runUploadedSequence s d id f c n).1 =
      decide ((d.reply (d.log.length + (if c then 0 else 1) + 1 +
        (if c && s.playingCont then 2 else 0))).status = .ALP_OK) ∧
    (runUploadedSequence s d id f c n).2.1 = { s with playingCont := c } := by
  unfold runUploadedSequence
  rw [runUploadedSequence.loop_mem s d id f c n _ hid]
  cases c
  · simp only [Bool.false_eq_true, if_false] at ht
    simp [runUploadedSequence.loop, Driver.call_fst, Driver.call_reply, Driver.call_length, ht]
  · simp only [if_true, Nat.add_zero] at ht
    cases hpc : s.playingCont <;>
      simp [runUploadedSequence.loop, Driver.call_fst, Driver.call_reply, Driver.call_length,
        ht, hpc, stopSequence, Nat.add_assoc]

/-- C11. Continuous run while continuous playback is flagged. For a pooled id,
with `playingCont` true on entry, `continuous = true` and a timing push that
succeeds, the driver calls `runUploadedSequence` issues are exactly the timing
push, `AlpProjHalt`, `AlpProjWait` and then one `AlpProjStartCont` on the id: the
stop comes before the only continuous start. `playingCont` is true on return. -/
theorem runUploadedSequence_implicit_stop (s : ALPwrapper) (d : Driver) (id : Int) (f : Double)
    (n : Int) (hid : id ∈ s.allocatedSequences) (hplay : s.playingCont = true)
    (ht : (d.reply d.log.length).status = .ALP_OK) :
    (runUploadedSequence s d id f true n).2.2.calls =
      d.calls ++ [.AlpSeqTiming s.nAlpId id (.num 0) (doubleToLong (1 / f * 1000000)) 0
          (Int.tdiv (doubleToLong (1 / f * 1000000)) 2) 0,
        .AlpProjHalt s.nAlpId, .AlpProjWait s.nAlpId, .AlpProjStartCont s.nAlpId id] ∧
    (runUploadedSequence s d id f true n).2.1.playingCont = true := by
  have hc := runUploadedSequence_calls s d id f true n hid
  have hs := (runUploadedSequence_started s d id f true n hid (by simpa using ht)).2
  refine ⟨?_, by rw [hs]⟩
  rw [hc]
  simp [ht, hplay]

/-- C11, witness: a session flagged as playing continuously, pool `[5]`, and a
driver that accepts every call. -/
theorem runUploadedSequence_implicit_stop_witness :
    (runUploadedSequence { xgaSession with allocatedSequences := [5], playingCont := true }
        { reply := fun _ => ⟨.ALP_OK, 0⟩, log := [] } 5 30 true 1).2.2.calls.drop 1 =
      [.AlpProjHalt 0, .AlpProjWait 0, .AlpProjStartCont 0 5] ∧
    (runUploadedSequence { xgaSession with allocatedSequences := [5], playingCont := true }
        { reply := fun _ => ⟨.ALP_OK, 0⟩, log := [] } 5 30 true 1).2.1.playingCont = true := by
  have h := runUploadedSequence_implicit_stop
    { xgaSession with allocatedSequences := [5], playingCont := true }
    { reply := fun _ => ⟨.ALP_OK, 0⟩, log := [] } 5 30 1 (by decide) rfl rfl
  refine ⟨?_, h.2⟩
  rw [h.1]
  rfl

/-- C13. `stopSequence`, from every state and for every pair of driver statuses:
it issues `AlpProjHalt` and then `AlpProjWait` (whatever the halt returned), the
session afterwards is the old one with `playingCont` false, and it returns true
exactly when both calls returned `ALP_OK`. -/
theorem stopSequence_spec (s : ALPwrapper) (d : Driver) :
    (stopSequence s d).2.2.calls = d.calls ++ [.AlpProjHalt s.nAlpId, .AlpProjWait s.nAlpId] ∧
    (stopSequence s d).2.1 = { s with playingCont := false } ∧
    (stopSequence s d).2.1.playingCont = false ∧
    (stopSequence s d).2.1.allocatedSequences = s.allocatedSequences ∧
    (stopSequence s d).2.1.initialized = s.initialized ∧
    (stopSequence s d).2.1.width = s.width ∧
    (stopSequence s d).2.1.height = s.height ∧
    ((stopSequence s d).1 = true ↔
      (d.reply d.log.length).status = .ALP_OK ∧
        (d.reply (d.log.length + 1)).status = .ALP_OK) := by
  refine ⟨stopSequence_calls s d, rfl, rfl, rfl, rfl, rfl, rfl, ?_⟩
  simp [stopSequence, Driver.call_fst, Driver.call_reply, Driver.call_length]

/-- C18, failing input. Bounded playback of pooled sequence 5 with a driver that
rejects the `ALP_SEQ_REPEAT` control and accepts the timing push and the start:
the rejected control is the first driver call, and `runUploadedSequence` returns
true all the same. -/
theorem runUploadedSequence_ignores_repeat_failure :
    (runUploadedSequence { xgaSession with allocatedSequences := [5] }
        { reply := fun k => if k = 0 then ⟨.error 1, 0⟩ else ⟨.ALP_OK, 0⟩, log := [] }
        5 30 false 3).1 = true ∧
    (runUploadedSequence { xgaSession with allocatedSequences := [5] }
        { reply := fun k => if k = 0 then ⟨.error 1, 0⟩ else ⟨.ALP_OK, 0⟩, log := [] }
        5 30 false 3).2.2.log.head? =
      some (.AlpSeqControl 0 5 .ALP_SEQ_REPEAT (.num 3), ⟨.error 1, 0⟩) := by
  have hid : (5 : Int) ∈ ({ xgaSession with allocatedSequences := [5] } :
      ALPwrapper).allocatedSequences := by decide
  refine ⟨?_, ?_⟩
  · rw [(runUploadedSequence_started _ _ 5 30 false 3 hid rfl).1]
    rfl
  · unfold runUploadedSequence
    rw [runUploadedSequence.loop_mem _ _ 5 30 false 3 _ hid]
    simp [runUploadedSequence.loop, Driver.call_log, Driver.call_fst, Driver.call_reply,
      Driver.call_length, xgaSession]

/-! ## Session set-up and teardown -/

/-- The driver calls, result and session of `release` on an initialized session. -/
theorem release_initialized (s : ALPwrapper) (d : Driver) (h : s.initialized = true) :
    (release s d).2.calls =
      d.calls ++ [.AlpDevHalt s.nAlpId] ++
        s.allocatedSequences.map (fun id => DriverCall.AlpSeqFree s.nAlpId id) ++
        [.AlpDevFree s.nAlpId] ∧
    (release s d).1 = { s with allocatedSequences := [], initialized := false } := by
  have hl := (releaseAllSequences.loop_calls s.nAlpId s.allocatedSequences
    (d.call (.AlpDevHalt s.nAlpId)).2 true).1
  constructor
  · simp [release, h, releaseAllSequences, Driver.call_calls, hl]
  · simp [release, h, releaseAllSequences]

/-- C14. Session `release()`. When `initialized` is false it issues no driver call
and changes nothing. When `initialized` is true the driver calls it issues are
exactly `AlpDevHalt`, then one `AlpSeqFree` per pool entry in pool order, then
`AlpDevFree`; afterwards `initialized` is false and the pool is empty (the other
fields are unchanged). -/
theorem release_spec (s : ALPwrapper) (d : Driver) :
    (s.initialized = false → release s d = (s, d)) ∧
    (s.initialized = true →
      (release s d).2.calls =
        d.calls ++ [.AlpDevHalt s.nAlpId] ++
          s.allocatedSequences.map (fun id => DriverCall.AlpSeqFree s.nAlpId id) ++
          [.AlpDevFree s.nAlpId] ∧
      (release s d).1.initialized = false ∧
      (release s d).1.allocatedSequences = [] ∧
      (release s d).1 = { s with allocatedSequences := [], initialized := false }) := by
  constructor
  · intro h
    simp [release, h]
  · intro h
    obtain ⟨h1, h2⟩ := release_initialized s d h
    exact ⟨h1, by rw [h2], by rw [h2], h2⟩

/-- C14, witness: an initialized session with pool `[4, 7]` is torn down by halt,
free of 4, free of 7, free of the device; a session that is not initialized is
left alone. -/
theorem release_spec_witness :
    (release { xgaSession with allocatedSequences := [4, 7] }
        { reply := fun _ => ⟨.ALP_OK, 0⟩, log := [] }).2.calls =
      [.AlpDevHalt 0, .AlpSeqFree 0 4, .AlpSeqFree 0 7, .AlpDevFree 0] ∧
    (release (ALPwrapper.new 0 1024 768) { reply := fun _ => ⟨.ALP_OK, 0⟩, log := [] }).2.log
      = [] := by
  have h1 := ((release_spec { xgaSession with allocatedSequences := [4, 7] }
    { reply := fun _ => ⟨.ALP_OK, 0⟩, log := [] }).2 rfl).1
  have h2 := (release_spec (ALPwrapper.new 0 1024 768)
    { reply := fun _ => ⟨.ALP_OK, 0⟩, log := [] }).1 rfl
  refine ⟨?_, by rw [h2]⟩
  rw [h1]
  rfl

/-- The result of `init` on a session that is not initialized. -/
theorem init_result (dmdType : Int → DmdType) (s : ALPwrapper) (d : Driver)
    (h : s.initialized = false) :
    ((init dmdType s d).1 = true ↔
      (d.reply d.log.length).status = .ALP_OK ∧
        (d.reply (d.log.length + 1)).status = .ALP_OK ∧
        dmdType (d.reply (d.log.length + 1)).value ≠ .other) ∧
    ((init dmdType s d).1 = true →
      (init dmdType s d).2.1.initialized = true ∧
      (((init dmdType s d).2.1.width = 1024 ∧ (init dmdType s d).2.1.height = 768) ∨
        ((init dmdType s d).2.1.width = 1920 ∧ (init dmdType s d).2.1.height = 1080) ∨
        ((init dmdType s d).2.1.width = 1920 ∧ (init dmdType s d).2.1.height = 1200))) ∧
    ((init dmdType s d).1 = false →
      (init dmdType s d).2.1.initialized = false ∧
      ∀ call ∈ (init dmdType s d).2.2.calls.drop d.calls.length, call.isDevFree = false) := by
  unfold init
  simp only [h, Bool.false_eq_true, if_false, Driver.call_fst, Driver.call_reply,
    Driver.call_length, Driver.call_calls]
  by_cases h0 : (d.reply d.log.length).status = .ALP_OK
  · by_cases h1 : (d.reply (d.log.length + 1)).status = .ALP_OK
    · cases ht : dmdType (d.reply (d.log.length + 1)).value <;>
        simp [h0, h1, ht, h, Driver.call_calls, List.append_assoc, List.drop_left]
    · simp [h0, h1, h, Driver.call_calls, List.append_assoc, List.drop_left]
  · simp [h0, h, Driver.call_calls, List.drop_left]

/-- The driver calls and the session `init` leaves on a session that is not
initialized. -/
theorem init_trace (dmdType : Int → DmdType) (s : ALPwrapper) (d : Driver)
    (h : s.initialized = false) :
    (init dmdType s d).2.2.calls =
      d.calls ++ (.AlpDevAlloc s._devID .ALP_DEFAULT ::
        if (d.reply d.log.length).status = .ALP_OK then
          [.AlpDevInquire (d.reply d.log.length).value .ALP_DEV_DMDTYPE]
        else []) ∧
    ((init dmdType s d).1 = false →
      (init dmdType s d).2.1 = { s with nAlpId := (d.reply d.log.length).value }) ∧
    ((d.reply d.log.length).status = .ALP_OK →
      (d.reply (d.log.length + 1)).status = .ALP_OK →
      (dmdType (d.reply (d.log.length + 1)).value = .ALP_DMDTYPE_XGA_055A ∨
          dmdType (d.reply (d.log.length + 1)).value = .ALP_DMDTYPE_XGA_055X ∨
          dmdType (d.reply (d.log.length + 1)).value = .ALP_DMDTYPE_XGA_07A →
        (init dmdType s d).2.1 = { s with
            nAlpId := (d.reply d.log.length).value, width := 1024, height := 768,
            initialized := true }) ∧
      (dmdType (d.reply (d.log.length + 1)).value = .ALP_DMDTYPE_DISCONNECT ∨
          dmdType (d.reply (d.log.length + 1)).value = .ALP_DMDTYPE_1080P_095A →
        (init dmdType s d).2.1 = { s with
            nAlpId := (d.reply d.log.length).value, width := 1920, height := 1080,
            initialized := true }) ∧
      (dmdType (d.reply (d.log.length + 1)).value = .ALP_DMDTYPE_WUXGA_096A →
        (init dmdType s d).2.1 = { s with
            nAlpId := (d.reply d.log.length).value, width := 1920, height := 1200,
            initialized := true })) := by
  unfold init
  simp only [h, Bool.false_eq_true, if_false, Driver.call_fst, Driver.call_reply,
    Driver.call_length, Driver.call_calls]
  by_cases h0 : (d.reply d.log.length).status = .ALP_OK
  · by_cases h1 : (d.reply (d.log.length + 1)).status = .ALP_OK
    · cases ht : dmdType (d.reply (d.log.length + 1)).value <;>
        simp [h0, h1, ht, h, Driver.call_calls, List.append_assoc]
    · simp [h0, h1, h, Driver.call_calls, List.append_assoc]
  · simp [h0, h, Driver.call_calls]

/-- C16. `init()`. On an initialized session it returns true, issues no driver
call and changes nothing. On a session that is not initialized it calls
`AlpDevAlloc(_devID, ALP_DEFAULT)` and, if that returned `ALP_OK`,
`AlpDevInquire(handle, ALP_DEV_DMDTYPE)` with the handle `AlpDevAlloc` delivered,
and issues no other driver call. It returns true exactly when both calls return
`ALP_OK` and the reported DMD type is one of the six recognized types. It then
leaves the session with the handle in `nAlpId`, `initialized` true and
`(width, height)` set to (1024, 768) for the three XGA types, to (1920, 1080) for
`ALP_DMDTYPE_DISCONNECT` and `ALP_DMDTYPE_1080P_095A` and to (1920, 1200) for
`ALP_DMDTYPE_WUXGA_096A`, every other field unchanged; so `(width, height)` is
one of the three pairs. When it returns false only `nAlpId` has changed. -/
theorem init_spec (dmdType : Int → DmdType) (s : ALPwrapper) (d : Driver) :
    (s.initialized = true → init dmdType s d = (true, s, d)) ∧
    (s.initialized = false →
      (init dmdType s d).2.2.calls =
        d.calls ++ (.AlpDevAlloc s._devID .ALP_DEFAULT ::
          if (d.reply d.log.length).status = .ALP_OK then
            [.AlpDevInquire (d.reply d.log.length).value .ALP_DEV_DMDTYPE]
          else []) ∧
      ((init dmdType s d).1 = true ↔
        (d.reply d.log.length).status = .ALP_OK ∧
          (d.reply (d.log.length + 1)).status = .ALP_OK ∧
          dmdType (d.reply (d.log.length + 1)).value ≠ .other) ∧
      ((init dmdType s d).1 = true →
        (init dmdType s d).2.1.initialized = true ∧
        (((init dmdType s d).2.1.width = 1024 ∧ (init dmdType s d).2.1.height = 768) ∨
          ((init dmdType s d).2.1.width = 1920 ∧ (init dmdType s d).2.1.height = 1080) ∨
          ((init dmdType s d).2.1.width = 1920 ∧ (init dmdType s d).2.1.height = 1200))) ∧
      ((d.reply d.log.length).status = .ALP_OK →
        (d.reply (d.log.length + 1)).status = .ALP_OK →
        (dmdType (d.reply (d.log.length + 1)).value = .ALP_DMDTYPE_XGA_055A ∨
            dmdType (d.reply (d.log.length + 1)).value = .ALP_DMDTYPE_XGA_055X ∨
            dmdType (d.reply (d.log.length + 1)).value = .ALP_DMDTYPE_XGA_07A →
          (init dmdType s d).2.1 = { s with
            nAlpId := (d.reply d.log.length).value, width := 1024, height := 768,
            initialized := true }) ∧
        (dmdType (d.reply (d.log.length + 1)).value = .ALP_DMDTYPE_DISCONNECT ∨
            dmdType (d.reply (d.log.length + 1)).value = .ALP_DMDTYPE_1080P_095A →
          (init dmdType s d).2.1 = { s with
            nAlpId := (d.reply d.log.length).value, width := 1920, height := 1080,
            initialized := true }) ∧
        (dmdType (d.reply (d.log.length + 1)).value = .ALP_DMDTYPE_WUXGA_096A →
          (init dmdType s d).2.1 = { s with
            nAlpId := (d.reply d.log.length).value, width := 1920, height := 1200,
            initialized := true })) ∧
      ((init dmdType s d).1 = false →
        (init dmdType s d).2.1 = { s with nAlpId := (d.reply d.log.length).value })) := by
  constructor
  · intro h
    simp [init, h]
  · intro h
    exact ⟨(init_trace dmdType s d h).1, (init_result dmdType s d h).1,
      (init_result dmdType s d h).2.1, (init_trace dmdType s d h).2.2,
      (init_trace dmdType s d h).2.1⟩

/-- C16, witness: a fresh session for device 1 and a driver that accepts both
calls, delivers handle 7 and reports a WUXGA DMD: `init` calls `AlpDevAlloc` and
`AlpDevInquire`, succeeds and leaves the session initialized on the 1920 x 1200
panel with handle 7; a second `init` changes nothing. -/
theorem init_spec_witness :
    (init (fun _ => .ALP_DMDTYPE_WUXGA_096A) (ALPwrapper.new 1 0 0)
        { reply := fun _ => ⟨.ALP_OK, 7⟩, log := [] }).1 = true ∧
    (init (fun _ => .ALP_DMDTYPE_WUXGA_096A) (ALPwrapper.new 1 0 0)
        { reply := fun _ => ⟨.ALP_OK, 7⟩, log := [] }).2.1 =
      { ALPwrapper.new 1 0 0 with
        nAlpId := 7, width := 1920, height := 1200, initialized := true } ∧
    (init (fun _ => .ALP_DMDTYPE_WUXGA_096A) (ALPwrapper.new 1 0 0)
        { reply := fun _ => ⟨.ALP_OK, 7⟩, log := [] }).2.2.calls =
      [.AlpDevAlloc 1 .ALP_DEFAULT, .AlpDevInquire 7 .ALP_DEV_DMDTYPE] ∧
    (init (fun _ => .ALP_DMDTYPE_WUXGA_096A) xgaSession
        { reply := fun _ => ⟨.ALP_OK, 7⟩, log := [] }) =
      (true, xgaSession, { reply := fun _ => ⟨.ALP_OK, 7⟩, log := [] }) := by
  have h := (init_spec (fun _ => .ALP_DMDTYPE_WUXGA_096A) (ALPwrapper.new 1 0 0)
    { reply := fun _ => ⟨.ALP_OK, 7⟩, log := [] }).2 rfl
  have h2 := (init_spec (fun _ => .ALP_DMDTYPE_WUXGA_096A) xgaSession
    { reply := fun _ => ⟨.ALP_OK, 7⟩, log := [] }).1 rfl
  exact ⟨h.2.1.mpr ⟨rfl, rfl, by decide⟩, (h.2.2.2.1 rfl rfl).2.2 rfl, h.1, h2⟩

/-- C15, failing input. A fresh session and a driver whose `AlpDevAlloc` succeeds
(handle 3) and whose `AlpDevInquire` fails: `init` returns false with
`initialized` false, and the only driver calls are `AlpDevAlloc` and
`AlpDevInquire`: no `AlpDevFree`. The same with an inquiry that succeeds and
reports an unrecognized type. A `release()` afterwards issues no call either, so
the handle is never freed. -/
theorem init_failure_keeps_device :
    (init (fun _ => .ALP_DMDTYPE_XGA_055A) (ALPwrapper.new 0 0 0)
        { reply := fun k => if k = 1 then ⟨.error 1, 0⟩ else ⟨.ALP_OK, 3⟩, log := [] }).1
      = false ∧
    (init (fun _ => .ALP_DMDTYPE_XGA_055A) (ALPwrapper.new 0 0 0)
        { reply := fun k => if k = 1 then ⟨.error 1, 0⟩ else ⟨.ALP_OK, 3⟩, log := [] }).2.1.initialized
      = false ∧
    (init (fun _ => .ALP_DMDTYPE_XGA_055A) (ALPwrapper.new 0 0 0)
        { reply := fun k => if k = 1 then ⟨.error 1, 0⟩ else ⟨.ALP_OK, 3⟩, log := [] }).2.2.log
      = [(.AlpDevAlloc 0 .ALP_DEFAULT, ⟨.ALP_OK, 3⟩),
          (.AlpDevInquire 3 .ALP_DEV_DMDTYPE, ⟨.error 1, 0⟩)] ∧
    (init (fun _ => .other) (ALPwrapper.new 0 0 0)
        { reply := fun _ => ⟨.ALP_OK, 3⟩, log := [] }).1 = false ∧
    (init (fun _ => .other) (ALPwrapper.new 0 0 0)
        { reply := fun _ => ⟨.ALP_OK, 3⟩, log := [] }).2.2.log
      = [(.AlpDevAlloc 0 .ALP_DEFAULT, ⟨.ALP_OK, 3⟩),
          (.AlpDevInquire 3 .ALP_DEV_DMDTYPE, ⟨.ALP_OK, 3⟩)] ∧
    (release
        (init (fun _ => .other) (ALPwrapper.new 0 0 0)
          { reply := fun _ => ⟨.ALP_OK, 3⟩, log := [] }).2.1
        (init (fun _ => .other) (ALPwrapper.new 0 0 0)
          { reply := fun _ => ⟨.ALP_OK, 3⟩, log := [] }).2.2).2.log
      = [(.AlpDevAlloc 0 .ALP_DEFAULT, ⟨.ALP_OK, 3⟩),
          (.AlpDevInquire 3 .ALP_DEV_DMDTYPE, ⟨.ALP_OK, 3⟩)] := by
  decide

/-! ## Continuous playback started by `showPattern` and `clear` -/

/-- C12, failing input. Two `showPattern` calls in a row on an initialized session,
with a driver that accepts every call: both issue a successful
`AlpProjStartCont` (for sequences 10 and 19), and the driver log holds no
`AlpProjHalt` and no `AlpProjWait` at all; `playingCont` is still false. The same
for two `clear` calls. -/
theorem showPattern_twice_no_stop :
    (showPattern xgaSession { reply := fun k => ⟨.ALP_OK, 10 + k⟩, log := [] }
      (List.replicate (128 * 768) 0)).1 = true ∧
    (showPattern
      (showPattern xgaSession { reply := fun k => ⟨.ALP_OK, 10 + k⟩, log := [] }
      (List.replicate (128 * 768) 0)).2.1
      (showPattern xgaSession { reply := fun k => ⟨.ALP_OK, 10 + k⟩, log := [] }
      (List.replicate (128 * 768) 0)).2.2
      (List.replicate (128 * 768) 0)).1 = true ∧
    (showPattern
      (showPattern xgaSession { reply := fun k => ⟨.ALP_OK, 10 + k⟩, log := [] }
      (List.replicate (128 * 768) 0)).2.1
      (showPattern xgaSession { reply := fun k => ⟨.ALP_OK, 10 + k⟩, log := [] }
      (List.replicate (128 * 768) 0)).2.2
      (List.replicate (128 * 768) 0)).2.2.calls.filter (fun c => c.isStart || c.isStop) =
        [.AlpProjStartCont 0 10, .AlpProjStartCont 0 19] ∧
    (showPattern
      (showPattern xgaSession { reply := fun k => ⟨.ALP_OK, 10 + k⟩, log := [] }
      (List.replicate (128 * 768) 0)).2.1
      (showPattern xgaSession { reply := fun k => ⟨.ALP_OK, 10 + k⟩, log := [] }
      (List.replicate (128 * 768) 0)).2.2
      (List.replicate (128 * 768) 0)).2.1.playingCont = false ∧
    (clear
      (clear xgaSession { reply := fun k => ⟨.ALP_OK, 10 + k⟩, log := [] } true).2.1
      (clear xgaSession { reply := fun k => ⟨.ALP_OK, 10 + k⟩, log := [] } true).2.2
      false).1 = true ∧
    (clear
      (clear xgaSession { reply := fun k => ⟨.ALP_OK, 10 + k⟩, log := [] } true).2.1
      (clear xgaSession { reply := fun k => ⟨.ALP_OK, 10 + k⟩, log := [] } true).2.2
      false).2.2.calls.filter (fun c => c.isStart || c.isStop) =
        [.AlpProjStartCont 0 10, .AlpProjStartCont 0 19] := by
  decide

/-! ## Upload failures -/

/-- C20, failing input. `clear(true)` on an initialized session with a driver that
allocates sequence 9, accepts the six controls and rejects `AlpSeqPut`: `clear`
returns false, sequence 9 is still in the pool, `AlpSeqPut` is the last driver
call and no `AlpSeqFree` was issued. With the same driver `showPattern` and
`uploadSequence` do free sequence 9 (their last driver call) and leave the pool
empty. -/
theorem clear_put_failure_keeps_sequence :
    (clear xgaSession
      { reply := fun k => if k = 7 then ⟨.error 1, 0⟩ else ⟨.ALP_OK, 9⟩, log := [] } true).1
      = false ∧
    (clear xgaSession
      { reply := fun k => if k = 7 then ⟨.error 1, 0⟩ else ⟨.ALP_OK, 9⟩, log := [] }
        true).2.1.allocatedSequences = [9] ∧
    (clear xgaSession
      { reply := fun k => if k = 7 then ⟨.error 1, 0⟩ else ⟨.ALP_OK, 9⟩, log := [] }
        true).2.2.calls.filter (fun c => c.isSeqFree || c.isStart) = [] ∧
    (clear xgaSession
      { reply := fun k => if k = 7 then ⟨.error 1, 0⟩ else ⟨.ALP_OK, 9⟩, log := [] }
        true).2.2.calls.length = 8 ∧
    (showPattern xgaSession
      { reply := fun k => if k = 7 then ⟨.error 1, 0⟩ else ⟨.ALP_OK, 9⟩, log := [] }
      (List.replicate (128 * 768) 0)).1
      = false ∧
    (showPattern xgaSession
      { reply := fun k => if k = 7 then ⟨.error 1, 0⟩ else ⟨.ALP_OK, 9⟩, log := [] }
        (List.replicate (128 * 768) 0)).2.1.allocatedSequences = [] ∧
    (showPattern xgaSession
      { reply := fun k => if k = 7 then ⟨.error 1, 0⟩ else ⟨.ALP_OK, 9⟩, log := [] }
        (List.replicate (128 * 768) 0)).2.2.calls.filter (fun c => c.isSeqFree || c.isStart) = [.AlpSeqFree 0 9] ∧
    (uploadSequence xgaSession
      { reply := fun k => if k = 7 then ⟨.error 1, 0⟩ else ⟨.ALP_OK, 9⟩, log := [] }
      (List.replicate (128 * 768) 0) 1).1
      = -1 ∧
    (uploadSequence xgaSession
      { reply := fun k => if k = 7 then ⟨.error 1, 0⟩ else ⟨.ALP_OK, 9⟩, log := [] }
        (List.replicate (128 * 768) 0) 1).2.1.allocatedSequences = [] ∧
    (uploadSequence xgaSession
      { reply := fun k => if k = 7 then ⟨.error 1, 0⟩ else ⟨.ALP_OK, 9⟩, log := [] }
        (List.replicate (128 * 768) 0) 1).2.2.calls.filter (fun c => c.isSeqFree || c.isStart) = [.AlpSeqFree 0 9] := by
  decide

/-! ## The `initialized` flag and the session operations -/

theorem allocateStandardSequence_flag (s : ALPwrapper) (d : Driver) (nFrames : Int) (b : Bool) :
    allocateStandardSequence { s with initialized := b } d nFrames =
      ((allocateStandardSequence s d nFrames).1,
        { (allocateStandardSequence s d nFrames).2.1 with initialized := b },
        (allocateStandardSequence s d nFrames).2.2) := by
  unfold allocateStandardSequence
  simp only []
  split_ifs <;> rfl

theorem runUploadedSequence.loop_flag (s : ALPwrapper) (d : Driver) (id : Int) (f : Double)
    (c : Bool) (n : Int) (b : Bool) (l : List Int) :
    runUploadedSequence.loop { s with initialized := b } d id f c n l =
      ((runUploadedSequence.loop s d id f c n l).1,
        { (runUploadedSequence.loop s d id f c n l).2.1 with initialized := b },
        (runUploadedSequence.loop s d id f c n l).2.2) := by
  obtain ⟨pc, pool, ini, nid, did, w, h⟩ := s
  induction l with
  | nil => rfl
  | cons it rest ih =>
    by_cases h : it = id
    · rw [runUploadedSequence.loop, runUploadedSequence.loop, if_pos h, if_pos h]
      simp only [stopSequence]
      cases c <;> cases pc <;> simp only [Bool.false_eq_true, if_false, if_true] <;>
        split_ifs <;> rfl
    · rw [runUploadedSequence.loop, runUploadedSequence.loop, if_neg h, if_neg h]
      exact ih

/-- C17, amended. None of the ten operations reads or writes `initialized`: run
on a session with the flag set to any value `b` (false in particular), each
returns the same value and issues the same driver calls as on the session with
the flag as it was, and leaves the same session apart from the flag, which stays
`b`. No operation is rejected because the flag is false. -/
theorem operations_ignore_initialized (s : ALPwrapper) (d : Driver) (b : Bool) :
    (∀ white, clear { s with initialized := b } d white =
      ((clear s d white).1, { (clear s d white).2.1 with initialized := b },
        (clear s d white).2.2)) ∧
    (∀ pattern, showPattern { s with initialized := b } d pattern =
      ((showPattern s d pattern).1, { (showPattern s d pattern).2.1 with initialized := b },
        (showPattern s d pattern).2.2)) ∧
    (∀ sequence numFrames, uploadSequence { s with initialized := b } d sequence numFrames =
      ((uploadSequence s d sequence numFrames).1,
        { (uploadSequence s d sequence numFrames).2.1 with initialized := b },
        (uploadSequence s d sequence numFrames).2.2)) ∧
    (∀ nFrames, allocateStandardSequence { s with initialized := b } d nFrames =
      ((allocateStandardSequence s d nFrames).1,
        { (allocateStandardSequence s d nFrames).2.1 with initialized := b },
        (allocateStandardSequence s d nFrames).2.2)) ∧
    (∀ id f c n, runUploadedSequence { s with initialized := b } d id f c n =
      ((runUploadedSequence s d id f c n).1,
        { (runUploadedSequence s d id f c n).2.1 with initialized := b },
        (runUploadedSequence s d id f c n).2.2)) ∧
    (∀ id, releaseSequence { s with initialized := b } d id =
      ((releaseSequence s d id).1, { (releaseSequence s d id).2.1 with initialized := b },
        (releaseSequence s d id).2.2)) ∧
    (releaseAllSequences { s with initialized := b } d =
      ((releaseAllSequences s d).1, { (releaseAllSequences s d).2.1 with initialized := b },
        (releaseAllSequences s d).2.2)) ∧
    (stopSequence { s with initialized := b } d =
      ((stopSequence s d).1, { (stopSequence s d).2.1 with initialized := b },
        (stopSequence s d).2.2)) ∧
    (waitForSequenceCompletion { s with initialized := b } d =
      ((waitForSequenceCompletion s d).1,
        { (waitForSequenceCompletion s d).2.1 with initialized := b },
        (waitForSequenceCompletion s d).2.2)) ∧
    (∀ idle, hasSequenceCompleted idle { s with initialized := b } d =
      ((hasSequenceCompleted idle s d).1,
        { (hasSequenceCompleted idle s d).2.1 with initialized := b },
        (hasSequenceCompleted idle s d).2.2)) := by
  refine ⟨?_, ?_, ?_, fun nFrames => allocateStandardSequence_flag s d nFrames b, ?_, ?_,
    rfl, rfl, rfl, fun _ => rfl⟩
  · intro white
    unfold clear
    rw [allocateStandardSequence_flag s d 1 b]
    simp only []
    split_ifs <;> rfl
  · intro pattern
    unfold showPattern
    rw [allocateStandardSequence_flag s d 1 b]
    simp only []
    split_ifs <;> rfl
  · intro sequence numFrames
    unfold uploadSequence
    rw [allocateStandardSequence_flag s d numFrames b]
    simp only []
    split_ifs <;> rfl
  · intro id f c n
    exact runUploadedSequence.loop_flag s d id f c n b s.allocatedSequences
  · intro id
    rfl

/-- C17, counterexample. A freshly constructed session (`initialized` false).
`releaseAllSequences` returns true, even with a driver that rejects every call.
With a driver that accepts every call, `stopSequence` and
`waitForSequenceCompletion` return true, and `allocateStandardSequence` returns
the new id 9 and puts it into the pool. -/
theorem operations_not_rejected_when_not_initialized :
    (ALPwrapper.new 0 0 0).initialized = false ∧
    (releaseAllSequences (ALPwrapper.new 0 0 0)
      { reply := fun _ => ⟨.error 1, 0⟩, log := [] }).1 = true ∧
    (stopSequence (ALPwrapper.new 0 0 0) { reply := fun _ => ⟨.ALP_OK, 9⟩, log := [] }).1
      = true ∧
    (waitForSequenceCompletion (ALPwrapper.new 0 0 0)
      { reply := fun _ => ⟨.ALP_OK, 9⟩, log := [] }).1 = true ∧
    (allocateStandardSequence (ALPwrapper.new 0 0 0)
      { reply := fun _ => ⟨.ALP_OK, 9⟩, log := [] } 1).1 = 9 ∧
    (allocateStandardSequence (ALPwrapper.new 0 0 0)
      { reply := fun _ => ⟨.ALP_OK, 9⟩, log := [] } 1).2.1.allocatedSequences = [9] := by
  decide

/-! ## Device index bounds in `mexFunction` -/

/-- The unreachable dispatch, `Init` and `IsInitialized`: they test the device
index before they touch `alps`; with an index outside `[0, MAX_CONNECTED_DMDS)`
they would end in `mexErrMsgTxt` and leave the table and the driver alone. -/
theorem mexFunction.dispatch_guarded (dmdType : Int → DmdType) (idle : Int) (w h : Nat)
    (uninit : Nat → Nat) (a : MexCall) (alps : List (Option ALPwrapper)) (d : Driver)
    (hc : a.Command = "Init" ∨ a.Command = "IsInitialized")
    (hr : a.devID < 0 ∨ a.devID ≥ MAX_CONNECTED_DMDS) :
    ∃ msg, mexFunction.dispatch dmdType idle w h uninit a alps d =
      .ok (.errMsgTxt msg, alps, d) := by
  unfold mexFunction.dispatch
  rcases hc with hc | hc
  · rw [if_pos hc]
    by_cases hn : a.nrhs ≠ 2
    · exact ⟨_, by rw [if_pos hn]⟩
    · exact ⟨_, by rw [if_neg hn, if_pos hr]⟩
  · have hne : a.Command ≠ "Init" := by rw [hc]; decide
    rw [if_neg hne, if_pos hc]
    by_cases hn : a.nrhs ≠ 2
    · exact ⟨_, by rw [if_pos hn]⟩
    · exact ⟨_, by rw [if_neg hn, if_pos hr]⟩

/-- The unreachable dispatch, every other command: `alps[devID]` is read without a
test of the index; with an index outside `[0, MAX_CONNECTED_DMDS)` (and the index
argument present) the dispatch would index the table out of bounds. -/
theorem mexFunction.dispatch_unguarded (dmdType : Int → DmdType) (idle : Int) (w h : Nat)
    (uninit : Nat → Nat) (a : MexCall) (alps : List (Option ALPwrapper)) (d : Driver)
    (h1 : a.Command ≠ "Init") (h2 : a.Command ≠ "IsInitialized") (hn : 2 ≤ a.nrhs)
    (hr : a.devID < 0 ∨ a.devID ≥ MAX_CONNECTED_DMDS) :
    mexFunction.dispatch dmdType idle w h uninit a alps d = .error (.outOfBounds a.devID) := by
  unfold mexFunction.dispatch
  have hg : ¬ (0 ≤ a.devID ∧ a.devID < MAX_CONNECTED_DMDS) := by
    rcases hr with hr | hr <;> omega
  rw [if_neg h1, if_neg h2, if_neg (by omega)]
  simp only [alpsGet, if_neg hg]

/-- An assignment outside the array is not performed: `store` returns a buffer
only for an index inside it. -/
theorem store_eq_some (b : List Nat) (i v : Nat) (b' : List Nat) (h : store b i v = some b') :
    i < b.length := by
  unfold store at h
  by_cases hi : i < b.length
  · exact hi
  · rw [if_neg hi] at h
    cases h

/-- A read outside the input is not performed: `packInput.pixel` returns a value
only when its index is inside `Input`. -/
theorem packInput.pixel_eq_some (Input : List Nat) (off height x k y v : Nat)
    (h : packInput.pixel Input off height x k y = some v) :
    off + height * (x * 8 + k) + y < Input.length := by
  unfold packInput.pixel intMul intAdd at h
  split at h
  · rw [Option.some_bind] at h
    split at h
    · rw [Option.some_bind] at h
      split at h
      · rw [Option.some_bind] at h
        by_contra hlt
        rw [List.getElem?_eq_none (by omega)] at h
        cases h
      · cases h
    · cases h
  · cases h

/-- With no frame the zero fill of one frame overruns the empty output buffer. -/
theorem packInput_zero_frames (s : ALPwrapper) (Input : List Nat)
    (Input_width Input_height : Nat) (uninit : Nat → Nat)
    (hfill : 0 < s.width / 8 * s.height) :
    packInput s Input Input_width Input_height 0 uninit = none := by
  unfold packInput
  simp only []
  cases h : intMul (s.width / 8) s.height with
  | none => rfl
  | some sh =>
    have hsh : sh = s.width / 8 * s.height := by
      unfold intMul at h
      split at h
      · exact (Option.some.inj h).symm
      · cases h
    have h0 : intMul sh 0 = some 0 := intMul_eq sh 0 (Nat.zero_le _)
    simp only [Option.some_bind, h0, memset, List.range_zero, List.map_nil, List.length_nil]
    rw [if_neg (by omega)]
    rfl

/-- C21 (amended). `packInput` stays within its buffers. For an unpacked input
(width 1024 or 768, not wider than the panel) of the panel height: with
`numFrames ≥ 1`, `numFrames` small enough for the `int` products of the code
(`Input_width * Input_height`, `Input_width * Input_height * (numFrames - 1)`,
`(numFrames - 1) * stride` and `stride * height * numFrames` are at most
`INT_MAX`), an input buffer of exactly `Input_width * Input_height * numFrames`
bytes and the output buffer of `stride * height * numFrames` bytes the code
allocates, `packInput` returns, which it does only if no product overflowed, no
read left the input and no write left the output; the zero fill of
`width / 8 * height` bytes fits the output; every index read is below
`Input_width * Input_height * numFrames` and every index written is below
`stride * height * numFrames`. With `numFrames = 0`, on a panel of positive
height, the output buffer has length 0 and the zero fill of
`width / 8 * height > 0` bytes overruns it. Divisibility of `width` by 8 is not
needed. -/
theorem packInput_stays_in_bounds (s : ALPwrapper) (Input : List Nat)
    (Input_width numFrames : Nat) (uninit : Nat → Nat)
    (hW : Input_width = 1024 ∨ Input_width = 768) (hpanel : Input_width ≤ s.width) :
    (1 ≤ numFrames → Input.length = Input_width * s.height * numFrames →
      Input_width * s.height ≤ INT_MAX →
      Input_width * s.height * (numFrames - 1) ≤ INT_MAX →
      (numFrames - 1) * (s.width / 8) ≤ INT_MAX →
      s.width / 8 * s.height * numFrames ≤ INT_MAX →
      (∃ out, packInput s Input Input_width s.height numFrames uninit = some out ∧
        out.length = s.width / 8 * s.height * numFrames) ∧
      s.width / 8 * s.height ≤ s.width / 8 * s.height * numFrames ∧
      (∀ f y x k, f < numFrames → y < s.height → x < Input_width / 8 → k < 8 →
        Input_width * s.height * f + s.height * (x * 8 + k) + y <
          Input_width * s.height * numFrames) ∧
      (∀ f y x, f < numFrames → y < s.height → x < Input_width / 8 →
        f * (s.width / 8) * s.height + y * (s.width / 8) + x <
          s.width / 8 * s.height * numFrames)) ∧
    (0 < s.height → s.width / 8 * s.height ≤ INT_MAX →
      ((intMul (s.width / 8) s.height).bind fun sh => intMul sh 0) = some 0 ∧
      memset ((List.range 0).map uninit) 0 (s.width / 8 * s.height) = none ∧
      packInput s Input Input_width s.height 0 uninit = none) := by
  have hlen : Input_width / 8 ≤ s.width / 8 := Nat.div_le_div_right hpanel
  have hs : 0 < s.width / 8 := by
    rcases hW with rfl | rfl <;> omega
  constructor
  · intro hN hIn hframe hlast hrow hsize
    obtain ⟨out, hout, hsize', -, -⟩ := packInput_unpacked s Input Input_width numFrames uninit
      hW hlen hN (by omega) hframe hlast hrow hsize
    refine ⟨⟨out, hout, hsize'⟩, Nat.le_mul_of_pos_right _ hN, ?_, ?_⟩
    · intro f y x k hf hy hx hk
      exact packInput.read_lt Input_width s.height numFrames f y x k hf hy hx hk
    · intro f y x hf hy hx
      exact packInput.pos_lt (s.width / 8) s.height numFrames f y x hf hy (by omega)
  · intro hh hfit
    refine ⟨?_, ?_, packInput_zero_frames s Input Input_width s.height uninit
      (Nat.mul_pos hs hh)⟩
    · rw [intMul_eq _ _ hfit, Option.some_bind]
      exact intMul_eq _ 0 (Nat.zero_le _)
    · unfold memset
      rw [if_neg]
      simp only [List.range_zero, List.map_nil, List.length_nil]
      have := Nat.mul_pos hs hh
      omega

/-- C21, witness: one 1024 x 768 frame on the 1024 x 768 panel is packed within
the buffers; with no frame the zero fill overruns. -/
theorem packInput_stays_in_bounds_witness :
    (∃ out, packInput xgaSession (List.replicate (1024 * 768 * 1) 0) 1024 768 1 (fun _ => 0)
        = some out ∧ out.length = 1024 / 8 * 768 * 1) ∧
    packInput xgaSession (List.replicate (1024 * 768 * 1) 0) 1024 768 0 (fun _ => 0) = none := by
  have h := packInput_stays_in_bounds xgaSession (List.replicate (1024 * 768 * 1) 0) 1024 1
    (fun _ => 0) (Or.inl rfl) (le_refl 1024)
  exact ⟨(h.1 (le_refl 1) (by rw [List.length_replicate]; rfl) (by decide) (by decide)
    (by decide) (by decide)).1, (h.2 (by decide) (by decide)).2.2⟩

/-- C21, counterexample. 3642 frames of width 768 on the 1024 x 768 panel, an
input of `768 * 768 * 3642` bytes: the preconditions of the claim hold, but the
offset of frame 3641, `768 * 768 * 3641 = 2147549184`, is above `INT_MAX`; the
`int` product overflows before the first read of that frame, and `packInput`
returns no buffer. -/
theorem packInput_offsets_overflow :
    packInput xgaSession (List.replicate (768 * 768 * 3642) 0) 768 768 3642 (fun _ => 0) =
      none ∧
    INT_MAX < 768 * 768 * 3641 :=
  ⟨packInput_input_offset_overflow xgaSession _ 768 768 3641 _ (Or.inr rfl) (by decide),
    by decide⟩

/-! ## The continuous flag after a start -/

/-- The last driver call of `runUploadedSequence` on a pooled id whose timing
push succeeds is the start call, with the response that decides the result. -/
theorem runUploadedSequence_last (s : ALPwrapper) (d : Driver) (id : Int) (f : Double)
    (c : Bool) (n : Int) (hid : id ∈ s.allocatedSequences)
    (ht : (d.reply (d.log.length + (if c then 0 else 1))).status = .ALP_OK) :
    (runUploadedSequence s d id f c n).2.2.log.getLast? =
      some (if c then .AlpProjStartCont s.nAlpId id else .AlpProjStart s.nAlpId id,
        d.reply (d.log.length + (if c then 0 else 1) + 1 +
          (if c && s.playingCont then 2 else 0))) := by
  unfold runUploadedSequence
  rw [runUploadedSequence.loop_mem s d id f c n _ hid]
  cases c
  · simp only [Bool.false_eq_true, if_false] at ht
    simp [runUploadedSequence.loop, Driver.call_fst, Driver.call_reply, Driver.call_length,
      Driver.call_log, ht]
  · simp only [if_true, Nat.add_zero] at ht
    cases hpc : s.playingCont <;>
      simp [runUploadedSequence.loop, Driver.call_fst, Driver.call_reply, Driver.call_length,
        Driver.call_log, ht, hpc, stopSequence, Nat.add_assoc]

/-- C22. For every call of `runUploadedSequence` on a pooled id whose timing push
succeeds: the last driver call is the start call (`AlpProjStartCont` for
continuous, `AlpProjStart` for bounded playback); the return value is true
exactly when that call returned `ALP_OK`; and `playingCont` on return equals
`continuous` whatever the start call returned. So a failed continuous start
returns false and leaves the session flagged as playing continuously. -/
theorem runUploadedSequence_flag_follows_request (s : ALPwrapper) (d : Driver) (id : Int)
    (f : Double) (c : Bool) (n : Int) (hid : id ∈ s.allocatedSequences)
    (ht : (d.reply (d.log.length + (if c then 0 else 1))).status = .ALP_OK) :
    ∃ start : Response,
      (runUploadedSequence s d id f c n).2.2.log.getLast? =
        some (if c then .AlpProjStartCont s.nAlpId id else .AlpProjStart s.nAlpId id, start) ∧
      ((runUploadedSequence s d id f c n).1 = true ↔ start.status = .ALP_OK) ∧
      (runUploadedSequence s d id f c n).2.1.playingCont = c ∧
      (c = true → start.status ≠ .ALP_OK →
        (runUploadedSequence s d id f c n).1 = false ∧
        (runUploadedSequence s d id f c n).2.1.playingCont = true) := by
  obtain ⟨h1, h2⟩ := runUploadedSequence_started s d id f c n hid ht
  refine ⟨_, runUploadedSequence_last s d id f c n hid ht, ?_, by rw [h2], ?_⟩
  · rw [h1]; simp
  · intro hc hfail
    rw [h1, h2]
    exact ⟨by simpa using hfail, hc⟩

/-- C22, witness: a continuous run of pooled sequence 5 whose timing push is
accepted and whose `AlpProjStartCont` is rejected returns false and leaves
`playingCont` true. -/
theorem runUploadedSequence_flag_follows_request_witness :
    (runUploadedSequence { xgaSession with allocatedSequences := [5] }
        { reply := fun k => if k = 1 then ⟨.error 1, 0⟩ else ⟨.ALP_OK, 0⟩, log := [] }
        5 30 true 1).1 = false ∧
    (runUploadedSequence { xgaSession with allocatedSequences := [5] }
        { reply := fun k => if k = 1 then ⟨.error 1, 0⟩ else ⟨.ALP_OK, 0⟩, log := [] }
        5 30 true 1).2.1.playingCont = true := by
  obtain ⟨start, hlast, -, -, h⟩ := runUploadedSequence_flag_follows_request
    { xgaSession with allocatedSequences := [5] }
    { reply := fun k => if k = 1 then ⟨.error 1, 0⟩ else ⟨.ALP_OK, 0⟩, log := [] }
    5 30 true 1 (by decide) rfl
  have hl := runUploadedSequence_last { xgaSession with allocatedSequences := [5] }
    { reply := fun k => if k = 1 then ⟨.error 1, 0⟩ else ⟨.ALP_OK, 0⟩, log := [] }
    5 30 true 1 (by decide) rfl
  rw [hl] at hlast
  have hs : start = ⟨.error 1, 0⟩ := by
    have := (Prod.mk.inj (Option.some.inj hlast)).2
    rw [← this]
    rfl
  exact h rfl (by rw [hs]; decide)

end ALP
